import Mathlib

/-!
Verification of the numerical core of the Solar-System-Explorer repository.

The TypeScript source is shallowly embedded over the real numbers: JS
`number` arithmetic is modelled by exact real arithmetic, `Date` values by
their millisecond time value, and boolean-returning detector functions by
(classically decidable) propositions.  Loops are modelled by structural
recursion; the two unbounded `while` loops of `calculateEventDuration`
carry explicit fuel `3651`, which is proved sufficient (the source's
3650-day cap fires before the fuel can run out).

The high-precision ephemeris wrapper `calculateHighPrecisionPosition`
(spec §4.2) is embedded faithfully, including its ten-body id switch and
its fixed-obliquity equatorial→ecliptic rotation; only the external
`astronomy-engine` library it calls (`Astronomy.HelioVector`, not part of
the repository) is modelled as a parameter — a partial map from resolved
body and date to an equatorial vector, with `none` covering both an
undefined `Astronomy` global and a thrown exception.
-/

set_option maxHeartbeats 1600000

noncomputable section

namespace SolarExplorer

open scoped Classical

/-- `Position` from `types.ts`: heliocentric ecliptic Cartesian coordinates in AU. -/
structure Position where
  x : ℝ
  y : ℝ
  z : ℝ
deriving DecidableEq

/-- `OrbitalElements` from `types.ts` (all angles in degrees, `a` in AU). -/
structure OrbitalElements where
  N : ℝ
  i : ℝ
  w : ℝ
  a : ℝ
  e : ℝ
  M : ℝ

/-- The slice of `PlanetData` (`types.ts`) read by the event-detection core:
the body id and its J2000 orbital elements. -/
structure PlanetData where
  id : String
  elements : OrbitalElements

/-- `EventType` from `types.ts`. -/
inductive EventType where
  | TRANSIT
  | PLANETARY_ALIGNMENT
deriving DecidableEq

/-- Modelled from the spec: the external `astronomy-engine` library consumed
by `calculateHighPrecisionPosition` (§4.2), which is absent from `src/`.
`Astronomy.HelioVector` either yields a heliocentric equatorial vector for a
resolved body at a date, or fails (`none` models both an undefined
`Astronomy` global and a thrown exception caught by the wrapper). -/
def HpAdapter : Type := String → ℝ → Option Position

/-- `MILLISECONDS_PER_DAY` from `data/constants`: one simulated day in
milliseconds. -/
def MILLISECONDS_PER_DAY : ℝ := 86400000

/-- `J2000_DATE` from `data/constants` (`new Date('2000-01-01T12:00:00Z')`)
as its millisecond time value. -/
def J2000ms : ℝ := 946728000000

/-- `deg2rad` from `utils/astronomy`. -/
def deg2rad (deg : ℝ) : ℝ := deg * Real.pi / 180

/-- JS truncation toward zero (`ToIntegerOrInfinity`), used to model the JS
`%` remainder operator on reals. -/
def jsTrunc (x : ℝ) : ℝ := if x < 0 then ↑⌈x⌉ else ↑⌊x⌋

/-- JS remainder `deg % 360` (sign follows the dividend). -/
def jsMod360 (deg : ℝ) : ℝ := deg - 360 * jsTrunc (deg / 360)

/-- `normalizeAngle` from `utils/astronomy`: reduce an angle in degrees into
`[0, 360)`. -/
def normalizeAngle (deg : ℝ) : ℝ :=
  let res := jsMod360 deg
  if res < 0 then res + 360 else res

/-- One Newton–Raphson update of `solveKepler`'s loop body: the iterate `E`
minus `deltaE = (E - e sin E - M_rad) / (1 - e cos E)`. -/
def keplerStep (e M_rad E : ℝ) : ℝ :=
  E - (E - e * Real.sin E - M_rad) / (1 - e * Real.cos E)

/-- The fuelled Newton–Raphson loop of `solveKepler` (`utils/astronomy`,
lines 22–27): update the iterate, stop once `|deltaE| < 1e-6`, and give up
after the fuel (100 in the source) is exhausted, returning the last iterate. -/
def solveKeplerGo (e M_rad : ℝ) : ℕ → ℝ → ℝ
  | 0, E => E
  | fuel + 1, E =>
      let deltaE := (E - e * Real.sin E - M_rad) / (1 - e * Real.cos E)
      let E1 := E - deltaE
      if |deltaE| < 1e-6 then E1 else solveKeplerGo e M_rad fuel E1

/-- `solveKepler` from `utils/astronomy`: solve Kepler's equation
`M = E - e sin E` by Newton–Raphson from `E₀ = M` (converted to radians),
capped at 100 iterations, tolerance `1e-6` on the step. -/
def solveKepler (M e : ℝ) : ℝ := solveKeplerGo e (deg2rad M) 100 (deg2rad M)

/-- `Math.atan2 y x`: the angle of the point `(x, y)` in `(-π, π]`. -/
def atan2 (y x : ℝ) : ℝ :=
  if 0 < x then Real.arctan (y / x)
  else if x < 0 then
    (if 0 ≤ y then Real.arctan (y / x) + Real.pi else Real.arctan (y / x) - Real.pi)
  else
    (if 0 < y then Real.pi / 2 else if y < 0 then -(Real.pi / 2) else 0)

/-- `calculateKeplerPosition` from `utils/astronomy` (Method A): J2000
Keplerian elements + date (ms) + central-mass multiplier → heliocentric
ecliptic position. -/
def calculateKeplerPosition (elements : OrbitalElements) (dateMs : ℝ)
    (centralMassMultiplier : ℝ) : Position :=
  let dayDiff := (dateMs - J2000ms) / MILLISECONDS_PER_DAY
  let n := 0.9856076686 * centralMassMultiplier / elements.a ^ (1.5 : ℝ)
  let M_curr := normalizeAngle (elements.M + n * dayDiff)
  let E := solveKepler M_curr elements.e
  let xv := elements.a * (Real.cos E - elements.e)
  let yv := elements.a * (Real.sqrt (1 - elements.e * elements.e) * Real.sin E)
  let v := atan2 yv xv
  let r := Real.sqrt (xv * xv + yv * yv)
  let i := deg2rad elements.i
  let N := deg2rad elements.N
  let w := deg2rad elements.w
  let u := v + w
  { x := r * (Real.cos N * Real.cos u - Real.sin N * Real.sin u * Real.cos i)
    y := r * (Real.sin N * Real.cos u + Real.cos N * Real.sin u * Real.cos i)
    z := r * (Real.sin u * Real.sin i) }

/-- The ten ids `calculateHighPrecisionPosition`'s switch maps to an
`Astronomy.Body`; every other id hits the `default: return null` arm before
the engine is ever consulted. -/
def HIGH_PRECISION_IDS : List String :=
  ["mercury", "venus", "earth", "mars", "jupiter", "saturn", "uranus",
   "neptune", "pluto", "moon"]

/-- `calculateHighPrecisionPosition` from `utils/astronomy` (Method B): the
id switch resolves only the ten named bodies (null otherwise); a vector
obtained from the external engine is rotated from the equatorial to the
ecliptic frame through the fixed obliquity 23.4392911°. -/
def calculateHighPrecisionPosition (hp : HpAdapter) (id : String)
    (dateMs : ℝ) : Option Position :=
  if id ∈ HIGH_PRECISION_IDS then
    match hp id dateMs with
    | none => none
    | some vec =>
        let eps := 23.4392911 * (Real.pi / 180)
        let cosEps := Real.cos eps
        let sinEps := Real.sin eps
        some { x := vec.x, y := vec.y * cosEps + vec.z * sinEps,
               z := -vec.y * sinEps + vec.z * cosEps }
  else none

/-- `calculateBodyPosition` from `utils/astronomy`: the Sun is pinned to the
origin; otherwise the high-precision wrapper (with its id switch) is
consulted when enabled and the Kepler solver (Method A) is the fallback. -/
def calculateBodyPosition (hp : HpAdapter) (id : String) (elements : OrbitalElements)
    (dateMs : ℝ) (useHighPrecision : Bool) : Position :=
  if id = "sun" then ⟨0, 0, 0⟩
  else if useHighPrecision then
    match calculateHighPrecisionPosition hp id dateMs with
    | some hpPos => hpPos
    | none => calculateKeplerPosition elements dateMs 1
  else calculateKeplerPosition elements dateMs 1

/-- Instrumentation of `calculateBodyPosition`'s control flow: `true` exactly
when the call reaches `calculateKeplerPosition` (and hence `solveKepler`),
`false` when a special case (Sun, or a resolved high-precision lookup)
returns first. -/
def calculateBodyPositionInvokesSolver (hp : HpAdapter) (id : String)
    (dateMs : ℝ) (useHighPrecision : Bool) : Bool :=
  if id = "sun" then false
  else if useHighPrecision then
    match calculateHighPrecisionPosition hp id dateMs with
    | some _ => false
    | none => true
  else true

/-- `getPositionHelper` from `utils/astronomy`: resolve an id through the
catalog (`allBodies`), with the Sun at the origin and unknown ids collapsing
to the origin. -/
def getPositionHelper (hp : HpAdapter) (id : String) (dateMs : ℝ)
    (useHighPrecision : Bool) (allBodies : List PlanetData) : Position :=
  if id = "sun" then ⟨0, 0, 0⟩
  else
    match allBodies.find? (fun x => x.id = id) with
    | none => ⟨0, 0, 0⟩
    | some p => calculateBodyPosition hp id p.elements dateMs useHighPrecision

/-- `subtractVectors` from `utils/astronomy`. -/
def subtractVectors (a b : Position) : Position :=
  ⟨a.x - b.x, a.y - b.y, a.z - b.z⟩

/-- `magnitude` from `utils/astronomy`. -/
def magnitude (v : Position) : ℝ :=
  Real.sqrt (v.x * v.x + v.y * v.y + v.z * v.z)

/-- `angleBetweenVectors3D` from `utils/astronomy`: the angle (radians)
between two vectors via the clamped dot-product formula, with the
zero-length guard returning 0. -/
def angleBetweenVectors3D (v1 v2 : Position) : ℝ :=
  let dot := v1.x * v2.x + v1.y * v2.y + v1.z * v2.z
  let mag1 := magnitude v1
  let mag2 := magnitude v2
  if mag1 = 0 ∨ mag2 = 0 then 0
  else Real.arccos (max (-1) (min 1 (dot / (mag1 * mag2))))

/-- `getEclipticLongitude` from `utils/astronomy`: `atan2` of the in-plane
components in degrees, normalized to `[0, 360)`. -/
def getEclipticLongitude (vec : Position) : ℝ :=
  let angle := atan2 vec.y vec.x * (180 / Real.pi)
  if angle < 0 then angle + 360 else angle

/-- The angle (degrees) between the Earth→Sun and Earth→body directions, as
computed inside `isTransit` and inside `getAlignmentMetric`'s transit
branch. -/
def transitAngleDeg (hp : HpAdapter) (planetName : String) (dateMs : ℝ)
    (useHighPrecision : Bool) (allBodies : List PlanetData) : ℝ :=
  let posEarth := getPositionHelper hp "earth" dateMs useHighPrecision allBodies
  let posPlanet := getPositionHelper hp planetName dateMs useHighPrecision allBodies
  let posSun : Position := ⟨0, 0, 0⟩
  let vecEarthSun := subtractVectors posSun posEarth
  let vecEarthPlanet := subtractVectors posPlanet posEarth
  angleBetweenVectors3D vecEarthSun vecEarthPlanet * (180 / Real.pi)

/-- `isTransit` from `utils/astronomy`: the Earth→Sun / Earth→body angle is
within the effective tolerance (the solar angular radius in strict mode) and
the body is nearer to Earth than the Sun. -/
def isTransit (hp : HpAdapter) (planetName : String) (dateMs : ℝ)
    (toleranceDeg : ℝ) (useHighPrecision : Bool) (strictMode : Bool)
    (solarRadiusDeg : ℝ) (allBodies : List PlanetData) : Prop :=
  let posEarth := getPositionHelper hp "earth" dateMs useHighPrecision allBodies
  let posPlanet := getPositionHelper hp planetName dateMs useHighPrecision allBodies
  let posSun : Position := ⟨0, 0, 0⟩
  let vecEarthSun := subtractVectors posSun posEarth
  let vecEarthPlanet := subtractVectors posPlanet posEarth
  let distToSun := magnitude vecEarthSun
  let distToPlanet := magnitude vecEarthPlanet
  let effectiveTolerance := if strictMode then solarRadiusDeg else toleranceDeg
  transitAngleDeg hp planetName dateMs useHighPrecision allBodies ≤ effectiveTolerance ∧
    distToPlanet < distToSun

/-- The `maxGap` loop shared by `checkSpecificAlignment` and
`getAlignmentMetric`: the largest difference between consecutive entries of
a list, folded over an accumulator. -/
def maxConsecGap : List ℝ → ℝ → ℝ
  | a :: b :: rest, acc => maxConsecGap (b :: rest) (if b - a > acc then b - a else acc)
  | _, acc => acc

/-- The combined angular span `360 - maxGap` of the Earth-relative ecliptic
longitudes of `targetIds` (longitudes sorted ascending, gaps including the
wraparound gap), shared by `checkSpecificAlignment` and
`getAlignmentMetric`'s alignment branch. -/
def alignmentSpan (hp : HpAdapter) (dateMs : ℝ) (targetIds : List String)
    (useHighPrecision : Bool) (allBodies : List PlanetData) : ℝ :=
  let posEarth := getPositionHelper hp "earth" dateMs useHighPrecision allBodies
  let longitudes := targetIds.map (fun id =>
    getEclipticLongitude (subtractVectors
      (getPositionHelper hp id dateMs useHighPrecision allBodies) posEarth))
  let sortedLongs := List.insertionSort (· ≤ ·) longitudes
  let maxGap0 := maxConsecGap sortedLongs 0
  let wrapGap := 360 - (sortedLongs.getLastD 0 - sortedLongs.headI)
  let maxGap := if wrapGap > maxGap0 then wrapGap else maxGap0
  360 - maxGap

/-- `checkSpecificAlignment` from `utils/astronomy`: fewer than two targets
never align; otherwise the combined angular span of the sorted
Earth-relative longitudes must be within the tolerance. -/
def checkSpecificAlignment (hp : HpAdapter) (dateMs : ℝ) (targetIds : List String)
    (toleranceDeg : ℝ) (useHighPrecision : Bool) (allBodies : List PlanetData) : Prop :=
  if targetIds.length < 2 then False
  else alignmentSpan hp dateMs targetIds useHighPrecision allBodies ≤ toleranceDeg

/-- The `check` closure of `calculateEventDuration`: all targets transiting
(for `TRANSIT`), or `checkSpecificAlignment` (for `PLANETARY_ALIGNMENT`). -/
def durationCheck (hp : HpAdapter) (eventType : EventType) (targetIds : List String)
    (toleranceDeg : ℝ) (useHighPrecision : Bool) (strictMode : Bool)
    (solarRadiusDeg : ℝ) (allBodies : List PlanetData) (t : ℝ) : Prop :=
  match eventType with
  | .TRANSIT => ∀ id ∈ targetIds,
      isTransit hp id t toleranceDeg useHighPrecision strictMode solarRadiusDeg allBodies
  | .PLANETARY_ALIGNMENT =>
      checkSpecificAlignment hp t targetIds toleranceDeg useHighPrecision allBodies

/-- One day in milliseconds as an integer time step (`STEP` in
`calculateEventDuration`). -/
def STEPms : ℤ := 86400000

/-- The backward `while` loop of `calculateEventDuration`: step `start` one
day back while the predicate holds, breaking once
`center - start > 3650 * STEP`.  The source loop is unbounded; fuel `3651`
is proved sufficient (`expandStartGo_fuel`-style lemmas below). -/
def expandStartGo (check : ℤ → Prop) (center : ℤ) : ℕ → ℤ → ℤ
  | 0, start => start
  | fuel + 1, start =>
      let nextT := start - STEPms
      if check nextT then
        (if center - nextT > 3650 * STEPms then nextT
         else expandStartGo check center fuel nextT)
      else start

/-- The forward `while` loop of `calculateEventDuration`, symmetric to
`expandStartGo`. -/
def expandEndGo (check : ℤ → Prop) (center : ℤ) : ℕ → ℤ → ℤ
  | 0, endT => endT
  | fuel + 1, endT =>
      let nextT := endT + STEPms
      if check nextT then
        (if nextT - center > 3650 * STEPms then nextT
         else expandEndGo check center fuel nextT)
      else endT

/-- `calculateEventDuration` from `utils/astronomy`: expand one day at a time
in both directions from a center date while the predicate holds, capped at
3650 days past the center on each side. -/
def calculateEventDuration (hp : HpAdapter) (centerT : ℤ) (eventType : EventType)
    (targetIds : List String) (toleranceDeg : ℝ) (useHighPrecision : Bool)
    (strictMode : Bool) (solarRadiusDeg : ℝ) (allBodies : List PlanetData) : ℤ × ℤ :=
  let check : ℤ → Prop := fun t =>
    durationCheck hp eventType targetIds toleranceDeg useHighPrecision strictMode
      solarRadiusDeg allBodies (t : ℝ)
  (expandStartGo check centerT 3651 centerT, expandEndGo check centerT 3651 centerT)

/-- `getAlignmentMetric` from `utils/astronomy`: the scalar minimized by
`findOptimalEventTime` — for transits the maximum Earth-Sun-to-body angle
over the targets, for alignments the combined angular span. -/
def getAlignmentMetric (hp : HpAdapter) (dateMs : ℝ) (eventType : EventType)
    (targetIds : List String) (useHighPrecision : Bool)
    (allBodies : List PlanetData) : ℝ :=
  match eventType with
  | .TRANSIT =>
      targetIds.foldl (fun maxDiff id =>
        let deg := transitAngleDeg hp id dateMs useHighPrecision allBodies
        if deg > maxDiff then deg else maxDiff) 0
  | .PLANETARY_ALIGNMENT =>
      if targetIds.length < 2 then 0
      else alignmentSpan hp dateMs targetIds useHighPrecision allBodies

/-- The coarse-sampling loop of `findOptimalEventTime`: fold the sample
indices (0..20 in the source) over the running `(bestTime, minMetric)`
pair. -/
def coarseLoop (metric : ℝ → ℝ) (startT stepSize : ℝ) :
    List ℕ → ℝ × ℝ → ℝ × ℝ
  | [], st => st
  | i :: rest, st =>
      let t := startT + (i : ℝ) * stepSize
      let m := metric t
      coarseLoop metric startT stepSize rest (if m < st.2 then (t, m) else st)

/-- The bounded ternary-search loop of `findOptimalEventTime` (10 iterations
in the source), retaining the best `(bestTime, minMetric)` seen. -/
def ternLoop (metric : ℝ → ℝ) : ℕ → ℝ → ℝ → ℝ × ℝ → ℝ × ℝ
  | 0, _, _, st => st
  | n + 1, left, right, st =>
      let m1 := left + (right - left) / 3
      let m2 := right - (right - left) / 3
      let v1 := metric m1
      let v2 := metric m2
      if v1 < v2 then
        ternLoop metric n left m2 (if v1 < st.2 then (m1, v1) else st)
      else
        ternLoop metric n m1 right (if v2 < st.2 then (m2, v2) else st)

/-- The optimizer core of `findOptimalEventTime` over an abstract metric:
coarse-sample 21 uniform points starting from `(start, 999)`, then ternary
search for 10 iterations in a bracket of one coarse step around the best
sample, clamped to the window. -/
def findOptimalCore (metric : ℝ → ℝ) (startT endT : ℝ) : ℝ × ℝ :=
  let stepSize := (endT - startT) / 20
  let coarse := coarseLoop metric startT stepSize (List.range 21) (startT, 999)
  let left := max startT (coarse.1 - stepSize)
  let right := min endT (coarse.1 + stepSize)
  ternLoop metric 10 left right coarse

/-- `findOptimalEventTime` from `utils/astronomy` (the `strictMode` and
`solarRadiusDeg` parameters are accepted but unused, as in the source). -/
def findOptimalEventTime (hp : HpAdapter) (startT endT : ℝ) (eventType : EventType)
    (targetIds : List String) (useHighPrecision : Bool) (strictMode : Bool)
    (solarRadiusDeg : ℝ) (allBodies : List PlanetData) : ℝ × ℝ :=
  findOptimalCore
    (fun t => getAlignmentMetric hp t eventType targetIds useHighPrecision allBodies)
    startT endT

/-- The time points at which `coarseLoop` evaluates the metric. -/
def coarseProbes (startT stepSize : ℝ) : List ℝ :=
  (List.range 21).map (fun i : ℕ => startT + (i : ℝ) * stepSize)

/-- The time points at which `ternLoop` evaluates the metric (`m1` and `m2`
of every iteration, following the bracket-narrowing path the source
takes). -/
def ternProbes (metric : ℝ → ℝ) : ℕ → ℝ → ℝ → List ℝ
  | 0, _, _ => []
  | n + 1, left, right =>
      let m1 := left + (right - left) / 3
      let m2 := right - (right - left) / 3
      m1 :: m2 ::
        (if metric m1 < metric m2 then ternProbes metric n left m2
         else ternProbes metric n m1 right)

/-- All metric evaluation points of `findOptimalCore` on a window: the 21
coarse samples followed by the ternary-search probes. -/
def optimalProbes (metric : ℝ → ℝ) (startT endT : ℝ) : List ℝ :=
  let stepSize := (endT - startT) / 20
  let coarse := coarseLoop metric startT stepSize (List.range 21) (startT, 999)
  let left := max startT (coarse.1 - stepSize)
  let right := min endT (coarse.1 + stepSize)
  coarseProbes startT stepSize ++ ternProbes metric 10 left right

/-- `FoundEvent` from `types.ts` (the random UI `id` string is omitted). -/
structure FoundEvent where
  eventType : EventType
  targetIds : List String
  startDate : ℤ
  endDate : ℤ
  optimalDate : ℝ
  minAngle : ℝ
  strictMode : Bool

/-- The found-event construction shared by `useSimulation.animate`
(lines 111–118) and `runCalculationBatch` (lines 186–193): expand the hit
date to a window with `calculateEventDuration`, refine with
`findOptimalEventTime`, and package the result. -/
def mkFoundEvent (hp : HpAdapter) (centerT : ℤ) (eventType : EventType)
    (targetIds : List String) (toleranceDeg : ℝ) (useHighPrecision : Bool)
    (strictMode : Bool) (solarRadiusDeg : ℝ) (allBodies : List PlanetData) :
    FoundEvent :=
  let dur := calculateEventDuration hp centerT eventType targetIds toleranceDeg
    useHighPrecision strictMode solarRadiusDeg allBodies
  let opt := findOptimalEventTime hp (dur.1 : ℝ) (dur.2 : ℝ) eventType targetIds
    useHighPrecision strictMode solarRadiusDeg allBodies
  { eventType := eventType, targetIds := targetIds, startDate := dur.1,
    endDate := dur.2, optimalDate := opt.1, minAngle := opt.2,
    strictMode := strictMode }

/-- `BASE_PROXIMITY_CONST` from `utils/projection`. -/
def BASE_PROXIMITY_CONST : ℝ := 2000

/-- `INFINITE_CAMERA_DIST` from `utils/projection`. -/
def INFINITE_CAMERA_DIST : ℝ := 100000

/-- `TIER_2_IDS` from `utils/projection`: the always-visible gas-giant
tier. -/
def TIER_2_IDS : List String := ["jupiter", "saturn", "uranus", "neptune"]

/-- `smoothStep` from `utils/projection`. -/
def smoothStep (edge0 edge1 x : ℝ) : ℝ :=
  let t := max 0 (min 1 ((x - edge0) / (edge1 - edge0)))
  t * t * (3 - 2 * t)

/-- The slice of `AppSettings` (`types.ts`) read by `project3D`. -/
structure CameraSettings where
  viewTilt : ℝ
  viewYaw : ℝ
  enablePerspective : Bool
  enableProximitySim : Bool

/-- `ProjectedPoint` from `utils/projection`. -/
structure ProjectedPoint where
  x : ℝ
  y : ℝ
  depth : ℝ
  scaleFactor : ℝ
  isVisible : Bool
  opacity : ℝ

/-- The pivot-relative yaw/tilt depth (`depth_pixels` in `project3D`). -/
def depthPixels (pos : Position) (scale : ℝ) (s : CameraSettings)
    (centerOfRotation : Position) : ℝ :=
  let tiltRad := s.viewTilt * Real.pi / 180
  let yawRad := s.viewYaw * Real.pi / 180
  let x_rel := pos.x - centerOfRotation.x
  let y_rel := pos.y - centerOfRotation.y
  let z_rel := pos.z - centerOfRotation.z
  let y_yaw := x_rel * Real.sin yawRad + y_rel * Real.cos yawRad
  (z_rel * Real.sin tiltRad - y_yaw * Real.cos tiltRad) * scale

/-- `effectiveCameraDist` of `project3D`'s perspective block: inversely
proportional to zoom under proximity simulation, otherwise a huge constant. -/
def effectiveCameraDist (s : CameraSettings) (zoomK : ℝ) : ℝ :=
  if s.enableProximitySim then BASE_PROXIMITY_CONST / zoomK
  else INFINITE_CAMERA_DIST

/-- The proximity-fade opacity of `project3D` as a function of the camera
distance `dist` and the body id: the Sun is opaque, the gas-giant tier fades
but is clamped at `0.3`, everything else fades to 0 inside a
near-plane/fade-range window (a smaller window for Mercury and Venus). -/
def proximityOpacity (id : String) (dist : ℝ) : ℝ :=
  if id = "sun" then 1.0
  else if id ∈ TIER_2_IDS then
    let nearPlane : ℝ := 100
    let fadeRange : ℝ := 300
    let val := if dist ≤ nearPlane then 0
      else if dist < nearPlane + fadeRange then (dist - nearPlane) / fadeRange
      else 1.0
    max val 0.3
  else
    let planeRange : ℝ × ℝ := if id = "mercury" ∨ id = "venus" then (50, 150) else (100, 300)
    let nearPlane := planeRange.1
    let fadeRange := planeRange.2
    if dist ≤ nearPlane then 0
    else if dist < nearPlane + fadeRange then (dist - nearPlane) / fadeRange
    else 1.0

/-- `project3D` from `utils/projection`: translate to the pivot, rotate by
yaw, tilt-project orthographically (canvas Y points down), then optionally
apply perspective with hard culling behind the camera, a perspective scale
factor and the proximity opacity fade.  A point is visible when its opacity
is at least `0.01`. -/
def project3D (pos : Position) (scale : ℝ) (s : CameraSettings) (zoomK : ℝ)
    (id : String) (centerOfRotation : Position) : ProjectedPoint :=
  let tiltRad := s.viewTilt * Real.pi / 180
  let yawRad := s.viewYaw * Real.pi / 180
  let sinTilt := Real.sin tiltRad
  let cosTilt := Real.cos tiltRad
  let cosYaw := Real.cos yawRad
  let sinYaw := Real.sin yawRad
  let x_rel := pos.x - centerOfRotation.x
  let y_rel := pos.y - centerOfRotation.y
  let z_rel := pos.z - centerOfRotation.z
  let x_yaw := x_rel * cosYaw - y_rel * sinYaw
  let y_yaw := x_rel * sinYaw + y_rel * cosYaw
  let z_yaw := z_rel
  let x_screen_ortho := x_yaw * scale
  let y_screen_ortho := -(y_yaw * sinTilt + z_yaw * cosTilt) * scale
  let depth_pixels := (z_yaw * sinTilt - y_yaw * cosTilt) * scale
  if s.enablePerspective then
    let effCam := effectiveCameraDist s zoomK
    let dist := effCam - depth_pixels
    if dist ≤ 0 then
      { x := 0, y := 0, depth := depth_pixels, scaleFactor := 0,
        isVisible := false, opacity := 0 }
    else
      let scaleFactor := effCam / dist
      let opac := proximityOpacity id dist
      { x := x_screen_ortho * scaleFactor, y := y_screen_ortho * scaleFactor,
        depth := depth_pixels, scaleFactor := scaleFactor,
        isVisible := if opac < 0.01 then false else true, opacity := opac }
  else
    { x := x_screen_ortho * 1, y := y_screen_ortho * 1, depth := depth_pixels,
      scaleFactor := 1, isVisible := if (1.0 : ℝ) < 0.01 then false else true,
      opacity := 1.0 }

/-- The continuous-mode slice of `SearchState` (`types.ts`) mutated by the
found-event branch of the scheduler: the found-event history, the captured
search start time, the scan pointer (the date scanning resumes from), and
the active/completed flags. -/
structure ContinuousSearchState where
  foundEvents : List FoundEvent
  searchStartTime : ℤ
  scanDate : ℤ
  active : Bool
  completed : Bool

/-- `yearsSearched` of the continuous branch:
`|duration.end - searchStartTime| / (MILLISECONDS_PER_DAY * 365)` (exact
rational arithmetic). -/
def yearsSearched (endDate searchStartTime : ℤ) : ℚ :=
  |(endDate : ℚ) - (searchStartTime : ℚ)| / (86400000 * 365)

/-- The continuous-iteration found-event transition shared by
`useSimulation.animate` (lines 120–129) and `runCalculationBatch`
(lines 195–208): append the event; if the history has reached 50 events or
the span from the search start has reached 2000 years, stop scanning and
mark the search completed, otherwise restart the scan pointer one day past
the found window (past its end going forward, before its start going
backward). -/
def continuousFoundUpdate (timeDirection : ℤ) (prev : ContinuousSearchState)
    (ev : FoundEvent) : ContinuousSearchState :=
  let updatedEvents := prev.foundEvents ++ [ev]
  if 50 ≤ updatedEvents.length ∨ 2000 ≤ yearsSearched ev.endDate prev.searchStartTime then
    { foundEvents := updatedEvents, searchStartTime := prev.searchStartTime,
      scanDate := prev.scanDate, active := false, completed := true }
  else
    { foundEvents := updatedEvents, searchStartTime := prev.searchStartTime,
      scanDate := if timeDirection = 1 then ev.endDate + 86400000
        else ev.startDate - 86400000,
      active := prev.active, completed := prev.completed }

/-- A continuous-mode run: process successive found events through
`continuousFoundUpdate` for as long as the search is still active. -/
def runContinuous (timeDirection : ℤ) :
    ContinuousSearchState → List FoundEvent → ContinuousSearchState
  | st, [] => st
  | st, ev :: rest =>
      if st.active then
        runContinuous timeDirection (continuousFoundUpdate timeDirection st ev) rest
      else st

/-- The sequence of Newton–Raphson iterates of `solveKepler` on `(M, e)`:
`keplerSeq M e 0 = deg2rad M` and each successor applies `keplerStep`. -/
def keplerSeq (M e : ℝ) : ℕ → ℝ
  | 0 => deg2rad M
  | n + 1 => keplerStep e (deg2rad M) (keplerSeq M e n)

/-- The stopping condition of `solveKepler`'s loop at iteration `n`: the
Newton step leaving iterate `n` has absolute value `< 1e-6`. -/
def keplerStops (M e : ℝ) (n : ℕ) : Prop :=
  |keplerSeq M e n - keplerSeq M e (n + 1)| < 1e-6

/-- An external-engine instance realizing a superior-conjunction geometry
for the switch-resolved bodies Earth and Mars (equatorial vectors, which the
in-source wrapper rotates into the ecliptic frame): Earth fixed at
`(1,0,0)`; Mars 90° off the Sun direction at distance 1/2 on the days
around time 0, exactly behind the Sun at distance 2 (farther than the Sun)
at the half-day instant `43200000`, and anti-Sunward outside the window. -/
def hpCex : HpAdapter := fun id t =>
  if id = "earth" then some ⟨1, 0, 0⟩
  else if id = "mars" then
    some (if t = 43200000 then ⟨-1, 0, 0⟩
      else if 0 ≤ t ∧ t ≤ 86400000 then
        ⟨1, 1 / 2 * Real.cos (23.4392911 * (Real.pi / 180)),
         1 / 2 * Real.sin (23.4392911 * (Real.pi / 180))⟩
      else ⟨2, 0, 0⟩)
  else none

/-- A two-body catalog for the counterexample searches; the orbital elements
are never reached because the high-precision wrapper resolves both ids
through `hpCex`. -/
def cexBodies : List PlanetData :=
  [⟨"earth", ⟨0, 0, 0, 1, 0, 0⟩⟩, ⟨"mars", ⟨0, 0, 0, 1, 0, 0⟩⟩]

/-- The transit metric of the counterexample search, as a function of time. -/
def metricCex (t : ℝ) : ℝ := getAlignmentMetric hpCex t .TRANSIT ["mars"] true cexBodies

theorem keplerSeq_succ_eq (M e : ℝ) (n : ℕ) :
    keplerSeq M e (n + 1) =
      keplerSeq M e n -
        (keplerSeq M e n - e * Real.sin (keplerSeq M e n) - deg2rad M) /
          (1 - e * Real.cos (keplerSeq M e n)) := by
  simp [keplerSeq, keplerStep]

theorem keplerStops_iff (M e : ℝ) (n : ℕ) :
    keplerStops M e n ↔
      |(keplerSeq M e n - e * Real.sin (keplerSeq M e n) - deg2rad M) /
          (1 - e * Real.cos (keplerSeq M e n))| < 1e-6 := by
  unfold keplerStops
  rw [keplerSeq_succ_eq]
  congr! 2
  ring

theorem solveKeplerGo_succ (e M_rad : ℝ) (fuel : ℕ) (E : ℝ) :
    solveKeplerGo e M_rad (fuel + 1) E =
      if |(E - e * Real.sin E - M_rad) / (1 - e * Real.cos E)| < 1e-6
      then E - (E - e * Real.sin E - M_rad) / (1 - e * Real.cos E)
      else solveKeplerGo e M_rad fuel
        (E - (E - e * Real.sin E - M_rad) / (1 - e * Real.cos E)) := rfl

/-- If the loop never stops during `fuel` further iterations starting from
iterate `k`, the fuelled loop returns the iterate `fuel` steps later. -/
theorem solveKeplerGo_of_no_stop (M e : ℝ) :
    ∀ fuel k, (∀ j, j < fuel → ¬ keplerStops M e (k + j)) →
      solveKeplerGo e (deg2rad M) fuel (keplerSeq M e k) = keplerSeq M e (k + fuel) := by
  intro fuel
  induction fuel with
  | zero => intro k _; simp [solveKeplerGo]
  | succ n ih =>
      intro k h
      have h0 : ¬ keplerStops M e k := by
        have := h 0 (Nat.succ_pos n)
        simpa using this
      rw [solveKeplerGo_succ]
      rw [if_neg (by rw [keplerStops_iff] at h0; exact h0)]
      have hstep : keplerSeq M e k -
          (keplerSeq M e k - e * Real.sin (keplerSeq M e k) - deg2rad M) /
            (1 - e * Real.cos (keplerSeq M e k)) = keplerSeq M e (k + 1) := by
        rw [keplerSeq_succ_eq]
      rw [hstep, ih (k + 1) (fun j hj => by
        have := h (j + 1) (by omega)
        simpa [Nat.add_assoc, Nat.add_comm 1 j] using this)]
      congr 1
      omega

/-- If the loop first stops at iteration `k + j` (with `j < fuel`), the
fuelled loop returns the iterate just after that stop. -/
theorem solveKeplerGo_of_first_stop (M e : ℝ) :
    ∀ fuel k j, j < fuel → keplerStops M e (k + j) →
      (∀ m, m < j → ¬ keplerStops M e (k + m)) →
      solveKeplerGo e (deg2rad M) fuel (keplerSeq M e k) = keplerSeq M e (k + j + 1) := by
  intro fuel
  induction fuel with
  | zero => intro k j hj; omega
  | succ n ih =>
      intro k j hj hstop hbefore
      rw [solveKeplerGo_succ]
      have hstep : keplerSeq M e k -
          (keplerSeq M e k - e * Real.sin (keplerSeq M e k) - deg2rad M) /
            (1 - e * Real.cos (keplerSeq M e k)) = keplerSeq M e (k + 1) := by
        rw [keplerSeq_succ_eq]
      rcases Nat.eq_zero_or_pos j with hj0 | hjpos
      · subst hj0
        have h0 : keplerStops M e k := by simpa using hstop
        rw [if_pos (by rw [keplerStops_iff] at h0; exact h0), hstep]
      · have h0 : ¬ keplerStops M e k := by
          have := hbefore 0 hjpos
          simpa using this
        rw [if_neg (by rw [keplerStops_iff] at h0; exact h0), hstep]
        have := ih (k + 1) (j - 1) (by omega)
          (by have : k + 1 + (j - 1) = k + j := by omega
              rw [this]; exact hstop)
          (fun m hm => by
            have := hbefore (m + 1) (by omega)
            simpa [Nat.add_assoc, Nat.add_comm 1 m] using this)
        rw [this]
        congr 1
        omega

/-- C2: for every mean anomaly `M` (degrees) and eccentricity `e`,
`solveKepler` runs Newton–Raphson starting at `E₀ = M` converted to radians
(`keplerSeq M e 0`), performs at most 100 iterations, stops as soon as the
iteration step satisfies `|ΔE| < 1e-6` (returning the iterate produced by
that step), and when the tolerance is never reached within the cap it
returns the 100th iterate as the accepted result instead of raising any
error (the function is total). -/
theorem C2_solveKepler_policy (M e : ℝ) :
    (∀ n, n < 100 → keplerStops M e n → (∀ m, m < n → ¬ keplerStops M e m) →
      solveKepler M e = keplerSeq M e (n + 1)) ∧
    ((∀ n, n < 100 → ¬ keplerStops M e n) → solveKepler M e = keplerSeq M e 100) := by
  constructor
  · intro n hn hstop hbefore
    have h := solveKeplerGo_of_first_stop M e 100 0 n hn (by simpa using hstop)
      (fun m hm => by simpa using hbefore m hm)
    simpa [solveKepler, keplerSeq] using h
  · intro h
    have h2 := solveKeplerGo_of_no_stop M e 100 0 (fun j hj => by simpa using h j hj)
    simpa [solveKepler, keplerSeq] using h2

/-- Witness for `C2_solveKepler_policy` at `M = 0`, `e = 0`: the first Newton
step is already below tolerance, and `solveKepler` returns the first
iterate. -/
theorem C2_solveKepler_policy_witness :
    keplerStops 0 0 0 ∧ solveKepler 0 0 = keplerSeq 0 0 1 := by
  have hstop : keplerStops 0 0 0 := by
    norm_num [keplerStops, keplerSeq, keplerStep, deg2rad]
  exact ⟨hstop, (C2_solveKepler_policy 0 0).1 0 (by norm_num) hstop
    (fun m hm => absurd hm (Nat.not_lt_zero m))⟩

/-- Counterexample to C7 as stated: the origin special case of
`calculateBodyPosition` keys on the id `"sun"`, not on `a = 0`.  A body
with id `"phobos"` and semi-major axis `a = 0` does reach the Kepler
solver; and for the switch-resolved id `"mars"` with `a = 0`, a resolved
high-precision lookup returns a non-origin position instead of the
claimed origin. -/
theorem C7_counterexample :
    (⟨0, 0, 0, 0, 0, 0⟩ : OrbitalElements).a = 0 ∧
    calculateBodyPositionInvokesSolver (fun _ _ => none) "phobos" 0 false = true ∧
    calculateBodyPosition (fun _ _ => some ⟨1, 0, 0⟩) "mars" ⟨0, 0, 0, 0, 0, 0⟩ 0 true ≠
      ⟨0, 0, 0⟩ := by
  have hid : ¬ ("phobos" = "sun") := by decide
  refine ⟨rfl, by norm_num [calculateBodyPositionInvokesSolver, hid], ?_⟩
  have hx : (calculateBodyPosition (fun _ _ => some ⟨1, 0, 0⟩) "mars"
      ⟨0, 0, 0, 0, 0, 0⟩ 0 true).x = 1 := rfl
  intro hcontra
  rw [hcontra] at hx
  norm_num at hx

/-- C7 (amended): the origin special case keys on the body id `"sun"`
rather than on `a = 0`: for every date, orbital elements, precision setting
and adapter, the computed position of the body with id `"sun"` is the
origin `(0,0,0)`, returned as a special case without invoking the Kepler
solver. -/
theorem C7_sun_special_case (hp : HpAdapter) (elements : OrbitalElements)
    (dateMs : ℝ) (useHighPrecision : Bool) :
    calculateBodyPosition hp "sun" elements dateMs useHighPrecision = ⟨0, 0, 0⟩ ∧
    calculateBodyPositionInvokesSolver hp "sun" dateMs useHighPrecision = false := by
  constructor <;>
    norm_num [calculateBodyPosition, calculateBodyPositionInvokesSolver]

/-- C9: for every yaw, tilt, scale, zoom factor, body id and settings,
projecting the pivot point itself (a position equal to `centerOfRotation`)
with `project3D` returns screen coordinates `(0, 0)` and depth `0`. -/
theorem C9_project_pivot (scale : ℝ) (s : CameraSettings) (zoomK : ℝ)
    (id : String) (pivot : Position) :
    (project3D pivot scale s zoomK id pivot).x = 0 ∧
    (project3D pivot scale s zoomK id pivot).y = 0 ∧
    (project3D pivot scale s zoomK id pivot).depth = 0 := by
  unfold project3D
  simp only [sub_self, zero_mul, mul_zero, zero_add, add_zero, neg_zero, zero_sub, sub_zero]
  split_ifs <;> simp

/-- In the un-culled perspective branch, the opacity returned by `project3D`
is the proximity fade evaluated at the camera distance. -/
theorem project3D_opacity_eq (pos : Position) (scale : ℝ) (s : CameraSettings)
    (zoomK : ℝ) (id : String) (pivot : Position)
    (hP : s.enablePerspective = true)
    (hd : 0 < effectiveCameraDist s zoomK - depthPixels pos scale s pivot) :
    (project3D pos scale s zoomK id pivot).opacity =
      proximityOpacity id (effectiveCameraDist s zoomK - depthPixels pos scale s pivot) := by
  simp only [depthPixels] at hd
  simp only [project3D]
  rw [if_pos hP, if_neg (not_le.mpr hd)]
  simp only [depthPixels]

/-- The Sun's proximity opacity is 1 at every camera distance. -/
theorem proximityOpacity_sun (d : ℝ) : proximityOpacity "sun" d = 1 := by
  norm_num [proximityOpacity]

/-- A gas-giant-tier body's proximity opacity is clamped to `[0.3, 1]`, and
equals 1 only once the camera distance reaches the far edge of the fade
window (400 pixels). -/
theorem proximityOpacity_tier2 (id : String) (d : ℝ) (h : id ∈ TIER_2_IDS) :
    3 / 10 ≤ proximityOpacity id d ∧ proximityOpacity id d ≤ 1 ∧
      (400 ≤ d → proximityOpacity id d = 1) := by
  have hsun : ¬ (id = "sun") := by
    intro hcontra
    rw [hcontra] at h
    simp [TIER_2_IDS] at h
  simp only [proximityOpacity, if_neg hsun, if_pos h]
  refine ⟨?_, ?_, ?_⟩
  · exact le_trans (by norm_num) (le_max_right _ _)
  · apply max_le _ (by norm_num)
    split_ifs with h1 h2
    · norm_num
    · rw [div_le_one (by norm_num)]
      linarith [h2]
    · norm_num
  · intro h400
    rw [if_neg (not_le.mpr (by linarith : (100 : ℝ) < d)),
      if_neg (not_lt.mpr (by linarith : (100 : ℝ) + 300 ≤ d))]
    norm_num

/-- A body outside the star and gas-giant tiers has proximity opacity 0 once
the camera distance shrinks to its near plane (at most 50 for every such
body). -/
theorem proximityOpacity_rest (id : String) (d : ℝ) (hsun : ¬ (id = "sun"))
    (htier : id ∉ TIER_2_IDS) (hd : d ≤ 50) : proximityOpacity id d = 0 := by
  simp only [proximityOpacity, if_neg hsun, if_neg htier]
  by_cases hmv : id = "mercury" ∨ id = "venus"
  · rw [if_pos hmv]
    exact if_pos (show d ≤ ((50 : ℝ), (150 : ℝ)).1 from hd)
  · rw [if_neg hmv]
    exact if_pos (show d ≤ ((100 : ℝ), (300 : ℝ)).1 from le_trans hd (by norm_num))

/-- Counterexample to C3 as stated: under perspective projection with the
point in front of the camera, Jupiter (a member of the gas-giant tier) is
returned with opacity `0.3`, not `1.0` — the tier is clamped to a `0.3`
floor, not held fully opaque.  (Camera: tilt 90°, yaw 0°, proximity
simulation on, zoom 10 ⇒ camera distance 200; the body sits at depth 150,
so `dist = 50 > 0`.) -/
theorem C3_counterexample :
    (CameraSettings.mk 90 0 true true).enablePerspective = true ∧
    0 < effectiveCameraDist ⟨90, 0, true, true⟩ 10 -
        depthPixels ⟨0, 0, 150⟩ 1 ⟨90, 0, true, true⟩ ⟨0, 0, 0⟩ ∧
    (project3D ⟨0, 0, 150⟩ 1 ⟨90, 0, true, true⟩ 10 "jupiter" ⟨0, 0, 0⟩).opacity = 3 / 10 ∧
    (3 : ℝ) / 10 ≠ 1 := by
  have htilt : (90 : ℝ) * Real.pi / 180 = Real.pi / 2 := by ring
  have hdepth : depthPixels ⟨0, 0, 150⟩ 1 ⟨90, 0, true, true⟩ ⟨0, 0, 0⟩ = 150 := by
    simp only [depthPixels]
    norm_num [htilt, Real.sin_pi_div_two]
  have hcam : effectiveCameraDist ⟨90, 0, true, true⟩ 10 = 200 := by
    norm_num [effectiveCameraDist, BASE_PROXIMITY_CONST]
  have hd : 0 < effectiveCameraDist ⟨90, 0, true, true⟩ 10 -
      depthPixels ⟨0, 0, 150⟩ 1 ⟨90, 0, true, true⟩ ⟨0, 0, 0⟩ := by
    rw [hdepth, hcam]; norm_num
  refine ⟨rfl, hd, ?_, by norm_num⟩
  rw [project3D_opacity_eq _ _ _ _ _ _ rfl hd, hdepth, hcam]
  have hjup : ("jupiter" : String) ∈ TIER_2_IDS := by decide
  have hnsun : ¬ (("jupiter" : String) = "sun") := by decide
  simp only [proximityOpacity, if_neg hnsun, if_pos hjup]
  norm_num

/-- C3 (amended): under perspective projection with the point not behind the
camera, `project3D` returns opacity exactly 1 for the body id `"sun"`; a
body of the always-visible gas-giant tier gets an opacity clamped to
`[0.3, 1]` (exactly 1 only from camera distance 400 outward), so it never
fully fades; every remaining body fades to opacity 0 as the camera distance
shrinks (reaching 0 at its near plane, at most 50). -/
theorem C3_opacity_policy (pos : Position) (scale : ℝ) (s : CameraSettings)
    (zoomK : ℝ) (pivot : Position) (hP : s.enablePerspective = true)
    (hd : 0 < effectiveCameraDist s zoomK - depthPixels pos scale s pivot) :
    (project3D pos scale s zoomK "sun" pivot).opacity = 1 ∧
    (∀ id ∈ TIER_2_IDS,
      3 / 10 ≤ (project3D pos scale s zoomK id pivot).opacity ∧
      (project3D pos scale s zoomK id pivot).opacity ≤ 1 ∧
      (400 ≤ effectiveCameraDist s zoomK - depthPixels pos scale s pivot →
        (project3D pos scale s zoomK id pivot).opacity = 1)) ∧
    (∀ id, ¬ (id = "sun") → id ∉ TIER_2_IDS →
      effectiveCameraDist s zoomK - depthPixels pos scale s pivot ≤ 50 →
      (project3D pos scale s zoomK id pivot).opacity = 0) := by
  refine ⟨?_, ?_, ?_⟩
  · rw [project3D_opacity_eq _ _ _ _ _ _ hP hd, proximityOpacity_sun]
  · intro id hmem
    rw [project3D_opacity_eq _ _ _ _ _ _ hP hd]
    exact proximityOpacity_tier2 id _ hmem
  · intro id hsun htier hclose
    rw [project3D_opacity_eq _ _ _ _ _ _ hP hd]
    exact proximityOpacity_rest id _ hsun htier hclose

/-- Witness for `C3_opacity_policy`: perspective on, proximity simulation
off (camera distance 100000), projecting the origin with pivot at the
origin. -/
theorem C3_opacity_policy_witness :
    (CameraSettings.mk 0 0 true false).enablePerspective = true ∧
    0 < effectiveCameraDist ⟨0, 0, true, false⟩ 1 -
        depthPixels ⟨0, 0, 0⟩ 1 ⟨0, 0, true, false⟩ ⟨0, 0, 0⟩ ∧
    (project3D ⟨0, 0, 0⟩ 1 ⟨0, 0, true, false⟩ 1 "sun" ⟨0, 0, 0⟩).opacity = 1 := by
  have hdepth : depthPixels ⟨0, 0, 0⟩ 1 ⟨0, 0, true, false⟩ ⟨0, 0, 0⟩ = 0 := by
    simp [depthPixels]
  have hd : 0 < effectiveCameraDist ⟨0, 0, true, false⟩ 1 -
      depthPixels ⟨0, 0, 0⟩ 1 ⟨0, 0, true, false⟩ ⟨0, 0, 0⟩ := by
    rw [hdepth]
    norm_num [effectiveCameraDist, INFINITE_CAMERA_DIST]
  exact ⟨rfl, hd, (C3_opacity_policy ⟨0, 0, 0⟩ 1 ⟨0, 0, true, false⟩ 1 ⟨0, 0, 0⟩ rfl hd).1⟩

/-- C10: for every date, tolerance, precision flag, adapter and body
catalog, `checkSpecificAlignment` rejects a target list with fewer than two
elements (the TS `!targetIds || targetIds.length < 2` guard; a null
`targetIds` is the same guard): a single body or an empty selection is
never reported as an alignment. -/
theorem C10_alignment_needs_two_targets (hp : HpAdapter) (dateMs : ℝ)
    (targetIds : List String) (toleranceDeg : ℝ) (useHighPrecision : Bool)
    (allBodies : List PlanetData) (hlen : targetIds.length < 2) :
    ¬ checkSpecificAlignment hp dateMs targetIds toleranceDeg useHighPrecision allBodies := by
  unfold checkSpecificAlignment
  rw [if_pos hlen]
  exact not_false

/-- Witness for `C10_alignment_needs_two_targets` on a one-element target
list. -/
theorem C10_alignment_needs_two_targets_witness :
    (["mercury"] : List String).length < 2 ∧
    ¬ checkSpecificAlignment (fun _ _ => none) 0 ["mercury"] 1 false [] :=
  ⟨by norm_num,
    C10_alignment_needs_two_targets (fun _ _ => none) 0 ["mercury"] 1 false [] (by norm_num)⟩

/-- The alignment span only depends on the multiset of target ids: sorting
makes any two orderings of the same ids produce the same longitude list. -/
theorem alignmentSpan_perm (hp : HpAdapter) (dateMs : ℝ) (useHighPrecision : Bool)
    (allBodies : List PlanetData) (ids1 ids2 : List String) (hperm : ids1.Perm ids2) :
    alignmentSpan hp dateMs ids1 useHighPrecision allBodies =
      alignmentSpan hp dateMs ids2 useHighPrecision allBodies := by
  simp only [alignmentSpan]
  have hsorted :
      List.insertionSort (· ≤ ·) (ids1.map (fun id =>
        getEclipticLongitude (subtractVectors
          (getPositionHelper hp id dateMs useHighPrecision allBodies)
          (getPositionHelper hp "earth" dateMs useHighPrecision allBodies)))) =
      List.insertionSort (· ≤ ·) (ids2.map (fun id =>
        getEclipticLongitude (subtractVectors
          (getPositionHelper hp id dateMs useHighPrecision allBodies)
          (getPositionHelper hp "earth" dateMs useHighPrecision allBodies)))) := by
    apply @List.eq_of_perm_of_sorted ℝ (· ≤ ·) _ _ _
    · exact (List.perm_insertionSort _ _).trans
        ((hperm.map _).trans (List.perm_insertionSort _ _).symm)
    · exact List.sorted_insertionSort _ _
    · exact List.sorted_insertionSort _ _
  rw [hsorted]

/-- C8: `checkSpecificAlignment` is invariant under permutation of
`targetIds`: for every date, tolerance, precision flag, adapter and body
catalog, any two orderings of the same list of target ids produce the same
result. -/
theorem C8_checkSpecificAlignment_perm_invariant (hp : HpAdapter) (dateMs : ℝ)
    (toleranceDeg : ℝ) (useHighPrecision : Bool) (allBodies : List PlanetData)
    (ids1 ids2 : List String) (hperm : ids1.Perm ids2) :
    checkSpecificAlignment hp dateMs ids1 toleranceDeg useHighPrecision allBodies ↔
      checkSpecificAlignment hp dateMs ids2 toleranceDeg useHighPrecision allBodies := by
  unfold checkSpecificAlignment
  rw [hperm.length_eq, alignmentSpan_perm hp dateMs useHighPrecision allBodies ids1 ids2 hperm]

/-- Witness for `C8_checkSpecificAlignment_perm_invariant` on the swapped
pair `["a", "b"]` / `["b", "a"]`. -/
theorem C8_checkSpecificAlignment_perm_invariant_witness :
    (["a", "b"] : List String).Perm ["b", "a"] ∧
    (checkSpecificAlignment (fun _ _ => none) 0 ["a", "b"] 1 false [] ↔
      checkSpecificAlignment (fun _ _ => none) 0 ["b", "a"] 1 false []) := by
  have hperm : (["a", "b"] : List String).Perm ["b", "a"] := by decide
  exact ⟨hperm,
    C8_checkSpecificAlignment_perm_invariant (fun _ _ => none) 0 1 false [] _ _ hperm⟩

theorem expandStartGo_succ (check : ℤ → Prop) (center : ℤ) (fuel : ℕ) (s : ℤ) :
    expandStartGo check center (fuel + 1) s =
      if check (s - STEPms) then
        (if center - (s - STEPms) > 3650 * STEPms then s - STEPms
         else expandStartGo check center fuel (s - STEPms))
      else s := rfl

theorem expandEndGo_succ (check : ℤ → Prop) (center : ℤ) (fuel : ℕ) (endT : ℤ) :
    expandEndGo check center (fuel + 1) endT =
      if check (endT + STEPms) then
        (if endT + STEPms - center > 3650 * STEPms then endT + STEPms
         else expandEndGo check center fuel (endT + STEPms))
      else endT := rfl

/-- Invariant proof for the backward expansion loop: starting from a
predicate-satisfying date, with the fuel/offset invariant, the loop result
is a predicate-satisfying date at most 3651 days before the center, and
the predicate fails one day earlier unless the cap side was hit. -/
theorem expandStartGo_spec (check : ℤ → Prop) (center : ℤ) :
    ∀ (fuel : ℕ) (s : ℤ), (fuel : ℤ) ≤ 3651 →
      center - s = (3651 - (fuel : ℤ)) * STEPms → check s →
      expandStartGo check center fuel s ≤ s ∧
      check (expandStartGo check center fuel s) ∧
      center - expandStartGo check center fuel s ≤ 3651 * STEPms ∧
      (center - expandStartGo check center fuel s ≤ 3650 * STEPms →
        ¬ check (expandStartGo check center fuel s - STEPms)) := by
  have hstep : STEPms = 86400000 := rfl
  intro fuel
  induction fuel with
  | zero =>
      intro s _ hinv hcheck
      simp only [expandStartGo]
      refine ⟨le_refl s, hcheck, ?_, ?_⟩
      · rw [hstep] at hinv ⊢
        push_cast at hinv
        linarith
      · intro hbound
        rw [hstep] at hinv hbound
        push_cast at hinv
        linarith
  | succ fuel ih =>
      intro s hfuel hinv hcheck
      rw [expandStartGo_succ]
      by_cases hc : check (s - STEPms)
      · rw [if_pos hc]
        by_cases hcap : center - (s - STEPms) > 3650 * STEPms
        · rw [if_pos hcap]
          refine ⟨by rw [hstep]; linarith, hc, ?_, ?_⟩
          · have : center - (s - STEPms) = (3651 - (fuel : ℤ)) * STEPms := by
              rw [hstep] at hinv ⊢
              push_cast at hinv ⊢
              linarith
            rw [this, hstep]
            have hf : (0 : ℤ) ≤ (fuel : ℤ) := Int.ofNat_nonneg fuel
            nlinarith
          · intro hbound
            exact absurd hbound (not_le.mpr hcap)
        · rw [if_neg hcap]
          have hrec := ih (s - STEPms)
            (by push_cast at hfuel ⊢; linarith)
            (by rw [hstep] at hinv ⊢; push_cast at hinv ⊢; linarith)
            hc
          exact ⟨le_trans hrec.1 (by rw [hstep]; linarith), hrec.2.1,
            hrec.2.2.1, hrec.2.2.2⟩
      · rw [if_neg hc]
        refine ⟨le_refl s, hcheck, ?_, fun _ => hc⟩
        rw [hstep] at hinv ⊢
        push_cast at hinv
        have hf : (0 : ℤ) ≤ (fuel : ℤ) := Int.ofNat_nonneg fuel
        linarith

/-- Mirror of `expandStartGo_spec` for the forward expansion loop. -/
theorem expandEndGo_spec (check : ℤ → Prop) (center : ℤ) :
    ∀ (fuel : ℕ) (endT : ℤ), (fuel : ℤ) ≤ 3651 →
      endT - center = (3651 - (fuel : ℤ)) * STEPms → check endT →
      endT ≤ expandEndGo check center fuel endT ∧
      check (expandEndGo check center fuel endT) ∧
      expandEndGo check center fuel endT - center ≤ 3651 * STEPms ∧
      (expandEndGo check center fuel endT - center ≤ 3650 * STEPms →
        ¬ check (expandEndGo check center fuel endT + STEPms)) := by
  have hstep : STEPms = 86400000 := rfl
  intro fuel
  induction fuel with
  | zero =>
      intro endT _ hinv hcheck
      simp only [expandEndGo]
      refine ⟨le_refl endT, hcheck, ?_, ?_⟩
      · rw [hstep] at hinv ⊢
        push_cast at hinv
        linarith
      · intro hbound
        rw [hstep] at hinv hbound
        push_cast at hinv
        linarith
  | succ fuel ih =>
      intro endT hfuel hinv hcheck
      rw [expandEndGo_succ]
      by_cases hc : check (endT + STEPms)
      · rw [if_pos hc]
        by_cases hcap : endT + STEPms - center > 3650 * STEPms
        · rw [if_pos hcap]
          refine ⟨by rw [hstep]; linarith, hc, ?_, ?_⟩
          · have : endT + STEPms - center = (3651 - (fuel : ℤ)) * STEPms := by
              rw [hstep] at hinv ⊢
              push_cast at hinv ⊢
              linarith
            rw [this, hstep]
            have hf : (0 : ℤ) ≤ (fuel : ℤ) := Int.ofNat_nonneg fuel
            nlinarith
          · intro hbound
            exact absurd hbound (not_le.mpr hcap)
        · rw [if_neg hcap]
          have hrec := ih (endT + STEPms)
            (by push_cast at hfuel ⊢; linarith)
            (by rw [hstep] at hinv ⊢; push_cast at hinv ⊢; linarith)
            hc
          exact ⟨le_trans (by rw [hstep]; linarith) hrec.1, hrec.2.1,
            hrec.2.2.1, hrec.2.2.2⟩
      · rw [if_neg hc]
        refine ⟨le_refl endT, hcheck, ?_, fun _ => hc⟩
        rw [hstep] at hinv ⊢
        push_cast at hinv
        have hf : (0 : ℤ) ≤ (fuel : ℤ) := Int.ofNat_nonneg fuel
        linarith

/-- C4: for every predicate instance (event type, target ids, tolerance,
precision/strict settings, adapter, body catalog) and every center date at
which the predicate holds, `calculateEventDuration` returns a window with
`start ≤ center ≤ end` such that the predicate is true at `start` and at
`end`, the predicate is false at `start - 1 day` and at `end + 1 day`
except on a side where the 3650-day expansion cap was hit, and the
expansion terminates: each side moves at most 3651 days from the center
(the embedding's fuel of 3651 days per side is proved never to run out,
which is the termination guarantee of the source's cap). -/
theorem C4_calculateEventDuration_spec (hp : HpAdapter) (centerT : ℤ)
    (eventType : EventType) (targetIds : List String) (toleranceDeg : ℝ)
    (useHighPrecision strictMode : Bool) (solarRadiusDeg : ℝ)
    (allBodies : List PlanetData)
    (hc : durationCheck hp eventType targetIds toleranceDeg useHighPrecision
      strictMode solarRadiusDeg allBodies (centerT : ℝ)) :
    (calculateEventDuration hp centerT eventType targetIds toleranceDeg
        useHighPrecision strictMode solarRadiusDeg allBodies).1 ≤ centerT ∧
    centerT ≤ (calculateEventDuration hp centerT eventType targetIds toleranceDeg
        useHighPrecision strictMode solarRadiusDeg allBodies).2 ∧
    durationCheck hp eventType targetIds toleranceDeg useHighPrecision strictMode
      solarRadiusDeg allBodies
      (((calculateEventDuration hp centerT eventType targetIds toleranceDeg
        useHighPrecision strictMode solarRadiusDeg allBodies).1 : ℝ)) ∧
    durationCheck hp eventType targetIds toleranceDeg useHighPrecision strictMode
      solarRadiusDeg allBodies
      (((calculateEventDuration hp centerT eventType targetIds toleranceDeg
        useHighPrecision strictMode solarRadiusDeg allBodies).2 : ℝ)) ∧
    centerT - (calculateEventDuration hp centerT eventType targetIds toleranceDeg
        useHighPrecision strictMode solarRadiusDeg allBodies).1 ≤ 3651 * STEPms ∧
    (calculateEventDuration hp centerT eventType targetIds toleranceDeg
        useHighPrecision strictMode solarRadiusDeg allBodies).2 - centerT ≤ 3651 * STEPms ∧
    (centerT - (calculateEventDuration hp centerT eventType targetIds toleranceDeg
        useHighPrecision strictMode solarRadiusDeg allBodies).1 ≤ 3650 * STEPms →
      ¬ durationCheck hp eventType targetIds toleranceDeg useHighPrecision strictMode
        solarRadiusDeg allBodies
        (((calculateEventDuration hp centerT eventType targetIds toleranceDeg
          useHighPrecision strictMode solarRadiusDeg allBodies).1 - STEPms : ℤ) : ℝ)) ∧
    ((calculateEventDuration hp centerT eventType targetIds toleranceDeg
        useHighPrecision strictMode solarRadiusDeg allBodies).2 - centerT ≤ 3650 * STEPms →
      ¬ durationCheck hp eventType targetIds toleranceDeg useHighPrecision strictMode
        solarRadiusDeg allBodies
        (((calculateEventDuration hp centerT eventType targetIds toleranceDeg
          useHighPrecision strictMode solarRadiusDeg allBodies).2 + STEPms : ℤ) : ℝ)) := by
  have hstart := expandStartGo_spec
    (fun t => durationCheck hp eventType targetIds toleranceDeg useHighPrecision
      strictMode solarRadiusDeg allBodies (t : ℝ)) centerT 3651 centerT
    (by norm_num) (by push_cast; ring) hc
  have hend := expandEndGo_spec
    (fun t => durationCheck hp eventType targetIds toleranceDeg useHighPrecision
      strictMode solarRadiusDeg allBodies (t : ℝ)) centerT 3651 centerT
    (by norm_num) (by push_cast; ring) hc
  exact ⟨hstart.1, hend.1, hstart.2.1, hend.2.1, hstart.2.2.1, hend.2.2.1,
    hstart.2.2.2, hend.2.2.2⟩

/-- Witness for `C4_calculateEventDuration_spec`: a transit search with an
empty target list (the `targetIds.every` predicate is vacuously true at the
center date). -/
theorem C4_calculateEventDuration_spec_witness :
    durationCheck (fun _ _ => none) .TRANSIT [] 1 false false 1 [] ((0 : ℤ) : ℝ) ∧
    (calculateEventDuration (fun _ _ => none) 0 .TRANSIT [] 1 false false 1 []).1 ≤ 0 ∧
    0 ≤ (calculateEventDuration (fun _ _ => none) 0 .TRANSIT [] 1 false false 1 []).2 := by
  have hc : durationCheck (fun _ _ => none) .TRANSIT [] 1 false false 1 [] ((0 : ℤ) : ℝ) := by
    intro id hid
    simp at hid
  have h := C4_calculateEventDuration_spec (fun _ _ => none) 0 .TRANSIT [] 1 false false 1 [] hc
  exact ⟨hc, h.1, h.2.1⟩

theorem coarseLoop_cons (metric : ℝ → ℝ) (s0 h : ℝ) (i : ℕ) (rest : List ℕ)
    (st : ℝ × ℝ) :
    coarseLoop metric s0 h (i :: rest) st =
      coarseLoop metric s0 h rest
        (if metric (s0 + (i : ℝ) * h) < st.2
         then (s0 + (i : ℝ) * h, metric (s0 + (i : ℝ) * h)) else st) := rfl

/-- Invariant of the coarse-sampling fold: the running minimum only
decreases, ends up below the metric of every processed sample, and the
final pair is either untouched or a sample where the metric value was
attained. -/
theorem coarseLoop_spec (metric : ℝ → ℝ) (s0 h : ℝ) :
    ∀ (idxs : List ℕ) (st : ℝ × ℝ),
      (coarseLoop metric s0 h idxs st).2 ≤ st.2 ∧
      (∀ i ∈ idxs, (coarseLoop metric s0 h idxs st).2 ≤ metric (s0 + (i : ℝ) * h)) ∧
      (coarseLoop metric s0 h idxs st = st ∨
        ∃ i ∈ idxs, (coarseLoop metric s0 h idxs st).1 = s0 + (i : ℝ) * h ∧
          metric (coarseLoop metric s0 h idxs st).1 = (coarseLoop metric s0 h idxs st).2) := by
  intro idxs
  induction idxs with
  | nil =>
      intro st
      simp [coarseLoop]
  | cons i rest ih =>
      intro st
      rw [coarseLoop_cons]
      by_cases hupd : metric (s0 + (i : ℝ) * h) < st.2
      · rw [if_pos hupd]
        have hrec := ih (s0 + (i : ℝ) * h, metric (s0 + (i : ℝ) * h))
        refine ⟨le_trans hrec.1 (le_of_lt hupd), ?_, ?_⟩
        · intro j hj
          rcases List.mem_cons.mp hj with hj0 | hjr
          · subst hj0
            exact hrec.1
          · exact hrec.2.1 j hjr
        · rcases hrec.2.2 with heq | ⟨j, hjr, hj1, hj2⟩
          · right
            refine ⟨i, List.mem_cons_self i rest, ?_, ?_⟩
            · rw [heq]
            · rw [heq]
          · right
            exact ⟨j, List.mem_cons_of_mem i hjr, hj1, hj2⟩
      · rw [if_neg hupd]
        have hrec := ih st
        refine ⟨hrec.1, ?_, ?_⟩
        · intro j hj
          rcases List.mem_cons.mp hj with hj0 | hjr
          · subst hj0
            exact le_trans hrec.1 (not_lt.mp hupd)
          · exact hrec.2.1 j hjr
        · rcases hrec.2.2 with heq | ⟨j, hjr, hj1, hj2⟩
          · left; exact heq
          · right
            exact ⟨j, List.mem_cons_of_mem i hjr, hj1, hj2⟩

theorem ternLoop_succ (metric : ℝ → ℝ) (n : ℕ) (l r : ℝ) (st : ℝ × ℝ) :
    ternLoop metric (n + 1) l r st =
      (if metric (l + (r - l) / 3) < metric (r - (r - l) / 3) then
        ternLoop metric n l (r - (r - l) / 3)
          (if metric (l + (r - l) / 3) < st.2
           then (l + (r - l) / 3, metric (l + (r - l) / 3)) else st)
      else
        ternLoop metric n (l + (r - l) / 3) r
          (if metric (r - (r - l) / 3) < st.2
           then (r - (r - l) / 3, metric (r - (r - l) / 3)) else st)) := rfl

theorem ternProbes_succ (metric : ℝ → ℝ) (n : ℕ) (l r : ℝ) :
    ternProbes metric (n + 1) l r =
      (l + (r - l) / 3) :: (r - (r - l) / 3) ::
        (if metric (l + (r - l) / 3) < metric (r - (r - l) / 3)
         then ternProbes metric n l (r - (r - l) / 3)
         else ternProbes metric n (l + (r - l) / 3) r) := rfl

/-- Invariant of the ternary-search loop: the retained minimum only
decreases, is below the metric of every probe, and the final pair is either
the input or a probe where the metric value was attained. -/
theorem ternLoop_spec (metric : ℝ → ℝ) :
    ∀ (n : ℕ) (l r : ℝ) (st : ℝ × ℝ),
      (ternLoop metric n l r st).2 ≤ st.2 ∧
      (∀ t ∈ ternProbes metric n l r, (ternLoop metric n l r st).2 ≤ metric t) ∧
      (ternLoop metric n l r st = st ∨
        ∃ t ∈ ternProbes metric n l r, (ternLoop metric n l r st).1 = t ∧
          metric (ternLoop metric n l r st).1 = (ternLoop metric n l r st).2) := by
  intro n
  induction n with
  | zero =>
      intro l r st
      simp [ternLoop, ternProbes]
  | succ n ih =>
      intro l r st
      rw [ternLoop_succ, ternProbes_succ]
      by_cases hcmp : metric (l + (r - l) / 3) < metric (r - (r - l) / 3)
      · rw [if_pos hcmp]
        by_cases hupd : metric (l + (r - l) / 3) < st.2
        · rw [if_pos hupd]
          have hrec := ih l (r - (r - l) / 3) (l + (r - l) / 3, metric (l + (r - l) / 3))
          refine ⟨le_trans hrec.1 (le_of_lt hupd), ?_, ?_⟩
          · intro t ht
            rcases List.mem_cons.mp ht with ht1 | ht'
            · subst ht1; exact hrec.1
            rcases List.mem_cons.mp ht' with ht2 | htr
            · subst ht2
              exact le_trans hrec.1 (le_of_lt hcmp)
            · rw [if_pos hcmp] at htr
              exact hrec.2.1 t htr
          · rcases hrec.2.2 with heq | ⟨t, htr, ht1, ht2⟩
            · right
              exact ⟨l + (r - l) / 3, List.mem_cons_self _ _,
                by rw [heq], by rw [heq]⟩
            · right
              refine ⟨t, ?_, ht1, ht2⟩
              exact List.mem_cons_of_mem _ (List.mem_cons_of_mem _ (by rw [if_pos hcmp]; exact htr))
        · rw [if_neg hupd]
          have hrec := ih l (r - (r - l) / 3) st
          refine ⟨hrec.1, ?_, ?_⟩
          · intro t ht
            rcases List.mem_cons.mp ht with ht1 | ht'
            · subst ht1
              exact le_trans hrec.1 (not_lt.mp hupd)
            rcases List.mem_cons.mp ht' with ht2 | htr
            · subst ht2
              exact le_trans (le_trans hrec.1 (not_lt.mp hupd)) (le_of_lt hcmp)
            · rw [if_pos hcmp] at htr
              exact hrec.2.1 t htr
          · rcases hrec.2.2 with heq | ⟨t, htr, ht1, ht2⟩
            · left; exact heq
            · right
              refine ⟨t, ?_, ht1, ht2⟩
              exact List.mem_cons_of_mem _ (List.mem_cons_of_mem _ (by rw [if_pos hcmp]; exact htr))
      · rw [if_neg hcmp]
        by_cases hupd : metric (r - (r - l) / 3) < st.2
        · rw [if_pos hupd]
          have hrec := ih (l + (r - l) / 3) r (r - (r - l) / 3, metric (r - (r - l) / 3))
          refine ⟨le_trans hrec.1 (le_of_lt hupd), ?_, ?_⟩
          · intro t ht
            rcases List.mem_cons.mp ht with ht1 | ht'
            · subst ht1
              exact le_trans hrec.1 (not_lt.mp hcmp)
            rcases List.mem_cons.mp ht' with ht2 | htr
            · subst ht2; exact hrec.1
            · rw [if_neg hcmp] at htr
              exact hrec.2.1 t htr
          · rcases hrec.2.2 with heq | ⟨t, htr, ht1, ht2⟩
            · right
              exact ⟨r - (r - l) / 3, List.mem_cons_of_mem _ (List.mem_cons_self _ _),
                by rw [heq], by rw [heq]⟩
            · right
              refine ⟨t, ?_, ht1, ht2⟩
              exact List.mem_cons_of_mem _ (List.mem_cons_of_mem _ (by rw [if_neg hcmp]; exact htr))
        · rw [if_neg hupd]
          have hrec := ih (l + (r - l) / 3) r st
          refine ⟨hrec.1, ?_, ?_⟩
          · intro t ht
            rcases List.mem_cons.mp ht with ht1 | ht'
            · subst ht1
              exact le_trans (le_trans hrec.1 (not_lt.mp hupd)) (not_lt.mp hcmp)
            rcases List.mem_cons.mp ht' with ht2 | htr
            · subst ht2
              exact le_trans hrec.1 (not_lt.mp hupd)
            · rw [if_neg hcmp] at htr
              exact hrec.2.1 t htr
          · rcases hrec.2.2 with heq | ⟨t, htr, ht1, ht2⟩
            · left; exact heq
            · right
              refine ⟨t, ?_, ht1, ht2⟩
              exact List.mem_cons_of_mem _ (List.mem_cons_of_mem _ (by rw [if_neg hcmp]; exact htr))

/-- Every ternary-search probe stays inside the bracket. -/
theorem ternProbes_mem_range (metric : ℝ → ℝ) :
    ∀ (n : ℕ) (l r : ℝ), l ≤ r →
      ∀ t ∈ ternProbes metric n l r, l ≤ t ∧ t ≤ r := by
  intro n
  induction n with
  | zero =>
      intro l r _ t ht
      simp [ternProbes] at ht
  | succ n ih =>
      intro l r hlr t ht
      rw [ternProbes_succ] at ht
      have hm1l : l ≤ l + (r - l) / 3 := by linarith
      have hm1r : l + (r - l) / 3 ≤ r := by linarith
      have hm2l : l ≤ r - (r - l) / 3 := by linarith
      have hm2r : r - (r - l) / 3 ≤ r := by linarith
      rcases List.mem_cons.mp ht with ht1 | ht'
      · subst ht1; exact ⟨hm1l, hm1r⟩
      rcases List.mem_cons.mp ht' with ht2 | htr
      · subst ht2; exact ⟨hm2l, hm2r⟩
      · by_cases hcmp : metric (l + (r - l) / 3) < metric (r - (r - l) / 3)
        · rw [if_pos hcmp] at htr
          have := ih l (r - (r - l) / 3) hm2l t htr
          exact ⟨this.1, le_trans this.2 hm2r⟩
        · rw [if_neg hcmp] at htr
          have := ih (l + (r - l) / 3) r hm1r t htr
          exact ⟨le_trans hm1l this.1, this.2⟩

/-- Every coarse sample of a window `[s, e]` with `s ≤ e` stays inside the
window. -/
theorem coarseProbes_mem_range (s e : ℝ) (hse : s ≤ e) :
    ∀ t ∈ coarseProbes s ((e - s) / 20), s ≤ t ∧ t ≤ e := by
  intro t ht
  unfold coarseProbes at ht
  rw [List.mem_map] at ht
  obtain ⟨i, hi, hfi⟩ := ht
  rw [List.mem_range] at hi
  subst hfi
  have hh : (0 : ℝ) ≤ (e - s) / 20 := by linarith
  have hi20 : (i : ℝ) ≤ 20 := by exact_mod_cast Nat.le_of_lt_succ hi
  have hcast : (0 : ℝ) ≤ (i : ℝ) := Nat.cast_nonneg i
  constructor
  · have h0 := mul_nonneg hcast hh
    linarith
  · have h1 : (i : ℝ) * ((e - s) / 20) ≤ 20 * ((e - s) / 20) :=
      mul_le_mul_of_nonneg_right hi20 hh
    have h2 : (20 : ℝ) * ((e - s) / 20) = e - s := by ring
    linarith

/-- Full specification of the optimizer core on a window `s ≤ e`: the
returned metric value is a lower bound of the metric over every probe; the
returned pair is either the untouched initial `(s, 999)` or a probe whose
metric equals the returned value; every probe — and the returned time —
lies inside the window. -/
theorem findOptimalCore_spec (metric : ℝ → ℝ) (s e : ℝ) (hse : s ≤ e) :
    (∀ u ∈ optimalProbes metric s e, (findOptimalCore metric s e).2 ≤ metric u) ∧
    (((findOptimalCore metric s e).1 = s ∧ (findOptimalCore metric s e).2 = 999) ∨
      ((findOptimalCore metric s e).1 ∈ optimalProbes metric s e ∧
        metric (findOptimalCore metric s e).1 = (findOptimalCore metric s e).2)) ∧
    (∀ u ∈ optimalProbes metric s e, s ≤ u ∧ u ≤ e) ∧
    (s ≤ (findOptimalCore metric s e).1 ∧ (findOptimalCore metric s e).1 ≤ e) := by
  have hh : (0 : ℝ) ≤ (e - s) / 20 := by linarith
  have hc := coarseLoop_spec metric s ((e - s) / 20) (List.range 21) (s, 999)
  set c := coarseLoop metric s ((e - s) / 20) (List.range 21) (s, 999) with hcdef
  have hfoc : findOptimalCore metric s e =
      ternLoop metric 10 (max s (c.1 - (e - s) / 20)) (min e (c.1 + (e - s) / 20)) c := rfl
  have hop : optimalProbes metric s e =
      coarseProbes s ((e - s) / 20) ++
        ternProbes metric 10 (max s (c.1 - (e - s) / 20)) (min e (c.1 + (e - s) / 20)) := rfl
  have hc1mem : c = (s, 999) ∨ c.1 ∈ coarseProbes s ((e - s) / 20) := by
    rcases hc.2.2 with h | ⟨i, hi, h1, _⟩
    · left; exact h
    · right
      exact List.mem_map.mpr ⟨i, hi, h1.symm⟩
  have hc1range : s ≤ c.1 ∧ c.1 ≤ e := by
    rcases hc1mem with h | h
    · rw [h]
      exact ⟨le_refl s, hse⟩
    · exact coarseProbes_mem_range s e hse c.1 h
  have hlr : max s (c.1 - (e - s) / 20) ≤ min e (c.1 + (e - s) / 20) := by
    apply le_trans (max_le hc1range.1 (by linarith))
    exact le_min hc1range.2 (by linarith)
  have hsl : s ≤ max s (c.1 - (e - s) / 20) := le_max_left _ _
  have hre : min e (c.1 + (e - s) / 20) ≤ e := min_le_left _ _
  have ht := ternLoop_spec metric 10
    (max s (c.1 - (e - s) / 20)) (min e (c.1 + (e - s) / 20)) c
  have hprobesRange : ∀ u ∈ optimalProbes metric s e, s ≤ u ∧ u ≤ e := by
    intro u hu
    rw [hop] at hu
    rcases List.mem_append.mp hu with hu1 | hu2
    · exact coarseProbes_mem_range s e hse u hu1
    · have := ternProbes_mem_range metric 10 _ _ hlr u hu2
      exact ⟨le_trans hsl this.1, le_trans this.2 hre⟩
  have hmin : ∀ u ∈ optimalProbes metric s e,
      (findOptimalCore metric s e).2 ≤ metric u := by
    intro u hu
    rw [hop] at hu
    rw [hfoc]
    rcases List.mem_append.mp hu with hu1 | hu2
    · obtain ⟨i, hi, hfi⟩ := List.mem_map.mp hu1
      refine le_trans (le_trans ht.1 ?_) (le_of_eq (congrArg metric hfi))
      exact hc.2.1 i hi
    · exact ht.2.1 u hu2
  have hattain : ((findOptimalCore metric s e).1 = s ∧
      (findOptimalCore metric s e).2 = 999) ∨
      ((findOptimalCore metric s e).1 ∈ optimalProbes metric s e ∧
        metric (findOptimalCore metric s e).1 = (findOptimalCore metric s e).2) := by
    rw [hfoc, hop]
    rcases ht.2.2 with heq | ⟨t, htr, ht1, ht2⟩
    · rw [heq]
      rcases hc.2.2 with h999 | ⟨i, hi, h1, h2⟩
      · left
        rw [h999]
        exact ⟨rfl, rfl⟩
      · right
        exact ⟨List.mem_append_left _ (List.mem_map.mpr ⟨i, hi, h1.symm⟩), h2⟩
    · right
      exact ⟨by rw [ht1]; exact List.mem_append_right _ htr, ht2⟩
  refine ⟨hmin, hattain, hprobesRange, ?_⟩
  rcases hattain with ⟨h1, _⟩ | ⟨h1, _⟩
  · rw [h1]
    exact ⟨le_refl s, hse⟩
  · exact hprobesRange _ h1

/-- The clamped-arccos angle is between 0 and π. -/
theorem angleBetweenVectors3D_mem (v1 v2 : Position) :
    0 ≤ angleBetweenVectors3D v1 v2 ∧ angleBetweenVectors3D v1 v2 ≤ Real.pi := by
  simp only [angleBetweenVectors3D]
  constructor <;> split_ifs
  · exact le_refl 0
  · exact Real.arccos_nonneg _
  · exact Real.pi_pos.le
  · exact Real.arccos_le_pi _

/-- The transit angle in degrees lies in `[0, 180]`. -/
theorem transitAngleDeg_bounds (hp : HpAdapter) (planetName : String) (dateMs : ℝ)
    (useHighPrecision : Bool) (allBodies : List PlanetData) :
    0 ≤ transitAngleDeg hp planetName dateMs useHighPrecision allBodies ∧
    transitAngleDeg hp planetName dateMs useHighPrecision allBodies ≤ 180 := by
  unfold transitAngleDeg
  have hang := angleBetweenVectors3D_mem
    (subtractVectors ⟨0, 0, 0⟩ (getPositionHelper hp "earth" dateMs useHighPrecision allBodies))
    (subtractVectors (getPositionHelper hp planetName dateMs useHighPrecision allBodies)
      (getPositionHelper hp "earth" dateMs useHighPrecision allBodies))
  have hratio : (0 : ℝ) ≤ 180 / Real.pi := by
    apply div_nonneg (by norm_num) Real.pi_pos.le
  constructor
  · exact mul_nonneg hang.1 hratio
  · have h1 := mul_le_mul_of_nonneg_right hang.2 hratio
    have h2 : Real.pi * (180 / Real.pi) = 180 := by
      field_simp

    linarith

/-- The running maximum of the transit-metric fold never drops below its
accumulator. -/
theorem foldl_jsmax_init_le (f : String → ℝ) :
    ∀ (l : List String) (acc : ℝ),
      acc ≤ l.foldl (fun m id => if f id > m then f id else m) acc := by
  intro l
  induction l with
  | nil => intro acc; simp
  | cons a rest ih =>
      intro acc
      simp only [List.foldl_cons]
      apply le_trans _ (ih _)
      split_ifs with h
      · exact le_of_lt h
      · exact le_refl acc

/-- The transit-metric fold is bounded by any bound of its accumulator and
entries. -/
theorem foldl_jsmax_le (f : String → ℝ) (c : ℝ) :
    ∀ (l : List String) (acc : ℝ), acc ≤ c → (∀ id ∈ l, f id ≤ c) →
      l.foldl (fun m id => if f id > m then f id else m) acc ≤ c := by
  intro l
  induction l with
  | nil => intro acc hacc _; simpa using hacc
  | cons a rest ih =>
      intro acc hacc hl
      simp only [List.foldl_cons]
      apply ih
      · split_ifs
        · exact hl a (List.mem_cons_self a rest)
        · exact hacc
      · intro id hid
        exact hl id (List.mem_cons_of_mem a hid)

/-- Every entry of the transit-metric fold is dominated by the fold
result. -/
theorem le_foldl_jsmax (f : String → ℝ) :
    ∀ (l : List String) (acc : ℝ) (id : String), id ∈ l →
      f id ≤ l.foldl (fun m id => if f id > m then f id else m) acc := by
  intro l
  induction l with
  | nil => intro acc id hid; simp at hid
  | cons a rest ih =>
      intro acc id hid
      simp only [List.foldl_cons]
      rcases List.mem_cons.mp hid with h | h
      · subst h
        apply le_trans _ (foldl_jsmax_init_le f rest _)
        split_ifs with hgt
        · exact le_refl _
        · exact not_lt.mp hgt
      · exact ih _ id h

/-- The consecutive-gap fold never drops below its accumulator. -/
theorem maxConsecGap_init_le : ∀ (l : List ℝ) (acc : ℝ), acc ≤ maxConsecGap l acc := by
  intro l
  induction l with
  | nil => intro acc; simp [maxConsecGap]
  | cons a rest ih =>
      intro acc
      cases rest with
      | nil => simp [maxConsecGap]
      | cons b rest2 =>
          show acc ≤ maxConsecGap (b :: rest2) (if b - a > acc then b - a else acc)
          apply le_trans _ (ih _)
          split_ifs with h
          · exact le_of_lt h
          · exact le_refl acc

/-- The combined angular span is at most 360°. -/
theorem alignmentSpan_le_360 (hp : HpAdapter) (dateMs : ℝ) (targetIds : List String)
    (useHighPrecision : Bool) (allBodies : List PlanetData) :
    alignmentSpan hp dateMs targetIds useHighPrecision allBodies ≤ 360 := by
  simp only [alignmentSpan]
  have h0 := maxConsecGap_init_le
    (List.insertionSort (· ≤ ·) (targetIds.map (fun id =>
      getEclipticLongitude (subtractVectors
        (getPositionHelper hp id dateMs useHighPrecision allBodies)
        (getPositionHelper hp "earth" dateMs useHighPrecision allBodies))))) 0
  split_ifs with h
  · linarith
  · linarith

/-- The alignment metric is strictly below the sentinel value 999 the
optimizer starts from: at most 180 for transits, at most 360 for
alignments. -/
theorem getAlignmentMetric_lt_999 (hp : HpAdapter) (dateMs : ℝ)
    (eventType : EventType) (targetIds : List String) (useHighPrecision : Bool)
    (allBodies : List PlanetData) :
    getAlignmentMetric hp dateMs eventType targetIds useHighPrecision allBodies < 999 := by
  cases eventType with
  | TRANSIT =>
      have hfold := foldl_jsmax_le
        (fun id => transitAngleDeg hp id dateMs useHighPrecision allBodies) 180
        targetIds 0 (by norm_num)
        (fun id _ => (transitAngleDeg_bounds hp id dateMs useHighPrecision allBodies).2)
      have heq : getAlignmentMetric hp dateMs .TRANSIT targetIds useHighPrecision allBodies =
          targetIds.foldl (fun m id =>
            if (fun id => transitAngleDeg hp id dateMs useHighPrecision allBodies) id > m
            then (fun id => transitAngleDeg hp id dateMs useHighPrecision allBodies) id
            else m) 0 := rfl
      rw [heq]
      exact lt_of_le_of_lt hfold (by norm_num)
  | PLANETARY_ALIGNMENT =>
      have heq : getAlignmentMetric hp dateMs .PLANETARY_ALIGNMENT targetIds
          useHighPrecision allBodies =
          (if targetIds.length < 2 then (0 : ℝ)
           else alignmentSpan hp dateMs targetIds useHighPrecision allBodies) := rfl
      rw [heq]
      split_ifs
      · norm_num
      · have := alignmentSpan_le_360 hp dateMs targetIds useHighPrecision allBodies
        linarith

/-- The transit metric is nonnegative (a maximum of angles starting from
0). -/
theorem getAlignmentMetric_transit_nonneg (hp : HpAdapter) (dateMs : ℝ)
    (targetIds : List String) (useHighPrecision : Bool)
    (allBodies : List PlanetData) :
    0 ≤ getAlignmentMetric hp dateMs .TRANSIT targetIds useHighPrecision allBodies :=
  foldl_jsmax_init_le
    (fun id => transitAngleDeg hp id dateMs useHighPrecision allBodies) targetIds 0

/-- Every target's transit angle is dominated by the transit metric. -/
theorem transitAngleDeg_le_metric (hp : HpAdapter) (dateMs : ℝ)
    (targetIds : List String) (useHighPrecision : Bool)
    (allBodies : List PlanetData) (id : String) (hid : id ∈ targetIds) :
    transitAngleDeg hp id dateMs useHighPrecision allBodies ≤
      getAlignmentMetric hp dateMs .TRANSIT targetIds useHighPrecision allBodies :=
  le_foldl_jsmax
    (fun id => transitAngleDeg hp id dateMs useHighPrecision allBodies) targetIds 0 id hid

/-- C5: for every window with `start ≤ end` and every predicate instance,
the metric value returned by `findOptimalEventTime` is at most the
alignment metric at `start` and at `end`, and it equals the minimum metric
value seen across the 21 coarse samples and all ternary-search probes
(`optimalProbes`): it is a lower bound of the metric on every probe, and
the returned time is a probe at which that minimum is attained. -/
theorem C5_findOptimalEventTime_min (hp : HpAdapter) (startT endT : ℝ)
    (eventType : EventType) (targetIds : List String) (useHighPrecision : Bool)
    (strictMode : Bool) (solarRadiusDeg : ℝ) (allBodies : List PlanetData)
    (hse : startT ≤ endT) :
    (findOptimalEventTime hp startT endT eventType targetIds useHighPrecision
        strictMode solarRadiusDeg allBodies).2 ≤
      getAlignmentMetric hp startT eventType targetIds useHighPrecision allBodies ∧
    (findOptimalEventTime hp startT endT eventType targetIds useHighPrecision
        strictMode solarRadiusDeg allBodies).2 ≤
      getAlignmentMetric hp endT eventType targetIds useHighPrecision allBodies ∧
    (∀ u ∈ optimalProbes
        (fun t => getAlignmentMetric hp t eventType targetIds useHighPrecision allBodies)
        startT endT,
      (findOptimalEventTime hp startT endT eventType targetIds useHighPrecision
        strictMode solarRadiusDeg allBodies).2 ≤
        getAlignmentMetric hp u eventType targetIds useHighPrecision allBodies) ∧
    (findOptimalEventTime hp startT endT eventType targetIds useHighPrecision
        strictMode solarRadiusDeg allBodies).1 ∈
      optimalProbes
        (fun t => getAlignmentMetric hp t eventType targetIds useHighPrecision allBodies)
        startT endT ∧
    getAlignmentMetric hp
      (findOptimalEventTime hp startT endT eventType targetIds useHighPrecision
        strictMode solarRadiusDeg allBodies).1 eventType targetIds useHighPrecision
        allBodies =
      (findOptimalEventTime hp startT endT eventType targetIds useHighPrecision
        strictMode solarRadiusDeg allBodies).2 := by
  have hcore := findOptimalCore_spec
    (fun t => getAlignmentMetric hp t eventType targetIds useHighPrecision allBodies)
    startT endT hse
  have hfoe : findOptimalEventTime hp startT endT eventType targetIds useHighPrecision
      strictMode solarRadiusDeg allBodies =
      findOptimalCore
        (fun t => getAlignmentMetric hp t eventType targetIds useHighPrecision allBodies)
        startT endT := rfl
  have hsmem : startT ∈ optimalProbes
      (fun t => getAlignmentMetric hp t eventType targetIds useHighPrecision allBodies)
      startT endT := by
    apply List.mem_append_left
    exact List.mem_map.mpr ⟨0, List.mem_range.mpr (by norm_num), by norm_num⟩
  have hemem : endT ∈ optimalProbes
      (fun t => getAlignmentMetric hp t eventType targetIds useHighPrecision allBodies)
      startT endT := by
    apply List.mem_append_left
    refine List.mem_map.mpr ⟨20, List.mem_range.mpr (by norm_num), ?_⟩
    push_cast
    ring
  have hattain : (findOptimalEventTime hp startT endT eventType targetIds
      useHighPrecision strictMode solarRadiusDeg allBodies).1 ∈
      optimalProbes
        (fun t => getAlignmentMetric hp t eventType targetIds useHighPrecision allBodies)
        startT endT ∧
      getAlignmentMetric hp
        (findOptimalEventTime hp startT endT eventType targetIds useHighPrecision
          strictMode solarRadiusDeg allBodies).1 eventType targetIds useHighPrecision
          allBodies =
        (findOptimalEventTime hp startT endT eventType targetIds useHighPrecision
          strictMode solarRadiusDeg allBodies).2 := by
    rcases hcore.2.1 with ⟨h1, h2⟩ | ⟨h1, h2⟩
    · exfalso
      have hub := hcore.1 startT hsmem
      rw [hfoe] at *
      rw [h2] at hub
      exact absurd (lt_of_le_of_lt hub
        (getAlignmentMetric_lt_999 hp startT eventType targetIds useHighPrecision allBodies))
        (lt_irrefl _)
    · rw [hfoe]
      exact ⟨h1, h2⟩
  refine ⟨?_, ?_, ?_, hattain⟩
  · rw [hfoe]
    exact hcore.1 startT hsmem
  · rw [hfoe]
    exact hcore.1 endT hemem
  · intro u hu
    rw [hfoe]
    exact hcore.1 u hu

/-- Witness for `C5_findOptimalEventTime_min` on the degenerate window
`[0, 0]` of an alignment search with no targets (metric constantly 0). -/
theorem C5_findOptimalEventTime_min_witness :
    (0 : ℝ) ≤ 0 ∧
    (findOptimalEventTime (fun _ _ => none) 0 0 .PLANETARY_ALIGNMENT [] false false 1 []).2 ≤
      getAlignmentMetric (fun _ _ => none) 0 .PLANETARY_ALIGNMENT [] false [] :=
  ⟨le_refl 0,
    (C5_findOptimalEventTime_min (fun _ _ => none) 0 0 .PLANETARY_ALIGNMENT [] false false 1 []
      (le_refl 0)).1⟩

theorem runContinuous_nil (dir : ℤ) (st : ContinuousSearchState) :
    runContinuous dir st [] = st := rfl

theorem runContinuous_cons (dir : ℤ) (st : ContinuousSearchState)
    (ev : FoundEvent) (rest : List FoundEvent) :
    runContinuous dir st (ev :: rest) =
      if st.active = true then
        runContinuous dir (continuousFoundUpdate dir st ev) rest
      else st := rfl

/-- Cap invariant of a continuous run: if the history holds at most 50
events, and scanning is already stopped whenever it holds exactly 50, then
after processing any sequence of finds the history still holds at most 50
events (and scanning is stopped at 50). -/
theorem runContinuous_cap_invariant (dir : ℤ) :
    ∀ (evs : List FoundEvent) (st : ContinuousSearchState),
      st.foundEvents.length ≤ 50 → (st.foundEvents.length = 50 → st.active = false) →
      (runContinuous dir st evs).foundEvents.length ≤ 50 ∧
      ((runContinuous dir st evs).foundEvents.length = 50 →
        (runContinuous dir st evs).active = false) := by
  intro evs
  induction evs with
  | nil =>
      intro st h1 h2
      rw [runContinuous_nil]
      exact ⟨h1, h2⟩
  | cons ev rest ih =>
      intro st h1 h2
      rw [runContinuous_cons]
      by_cases hact : st.active = true
      · rw [if_pos hact]
        apply ih
        · show (continuousFoundUpdate dir st ev).foundEvents.length ≤ 50
          have hlt : st.foundEvents.length < 50 := by
            rcases Nat.lt_or_ge st.foundEvents.length 50 with h | h
            · exact h
            · exfalso
              have h50 : st.foundEvents.length = 50 := le_antisymm h1 h
              rw [h2 h50] at hact
              exact Bool.false_ne_true hact
          unfold continuousFoundUpdate
          by_cases hcap : 50 ≤ (st.foundEvents ++ [ev]).length ∨
              2000 ≤ yearsSearched ev.endDate st.searchStartTime
          · rw [if_pos hcap]
            simp
            omega
          · rw [if_neg hcap]
            simp
            omega
        · show (continuousFoundUpdate dir st ev).foundEvents.length = 50 →
            (continuousFoundUpdate dir st ev).active = false
          intro h50
          unfold continuousFoundUpdate at h50 ⊢
          by_cases hcap : 50 ≤ (st.foundEvents ++ [ev]).length ∨
              2000 ≤ yearsSearched ev.endDate st.searchStartTime
          · rw [if_pos hcap]
          · rw [if_neg hcap] at h50 ⊢
            exfalso
            simp at h50
            push_neg at hcap
            simp at hcap
            omega
      · rw [if_neg hact]
        exact ⟨h1, h2⟩

/-- C6: when continuous iteration is enabled, after each found event that
does not hit a cap the search restarts with the scan pointer one day past
the found window (past its end scanning forward, before its start scanning
backward) and stays active rather than going idle; as soon as the
accumulated found-event count reaches 50 or the simulated span from the
search start reaches 2000 years, scanning stops and the state is marked
completed; and a run started below the event cap never accumulates more
than 50 events. -/
theorem C6_continuous_iteration (dir : ℤ) (st : ContinuousSearchState)
    (ev : FoundEvent) (evs : List FoundEvent) :
    (¬ (50 ≤ (st.foundEvents ++ [ev]).length ∨
        2000 ≤ yearsSearched ev.endDate st.searchStartTime) →
      (continuousFoundUpdate dir st ev).scanDate =
        (if dir = 1 then ev.endDate + 86400000 else ev.startDate - 86400000) ∧
      (continuousFoundUpdate dir st ev).active = st.active ∧
      (continuousFoundUpdate dir st ev).completed = st.completed ∧
      (continuousFoundUpdate dir st ev).foundEvents = st.foundEvents ++ [ev]) ∧
    ((50 ≤ (st.foundEvents ++ [ev]).length ∨
        2000 ≤ yearsSearched ev.endDate st.searchStartTime) →
      (continuousFoundUpdate dir st ev).active = false ∧
      (continuousFoundUpdate dir st ev).completed = true ∧
      (continuousFoundUpdate dir st ev).foundEvents = st.foundEvents ++ [ev]) ∧
    (st.foundEvents.length ≤ 50 → (st.foundEvents.length = 50 → st.active = false) →
      (runContinuous dir st evs).foundEvents.length ≤ 50) := by
  refine ⟨?_, ?_, ?_⟩
  · intro hcap
    unfold continuousFoundUpdate
    rw [if_neg hcap]
    exact ⟨rfl, rfl, rfl, rfl⟩
  · intro hcap
    unfold continuousFoundUpdate
    rw [if_pos hcap]
    exact ⟨rfl, rfl, rfl⟩
  · intro h1 h2
    exact (runContinuous_cap_invariant dir evs st h1 h2).1

/-- Witness for `C6_continuous_iteration`: a fresh state (no events yet,
active) processing one event whose window ends one day in. -/
theorem C6_continuous_iteration_witness :
    ((⟨[], 0, 0, true, false⟩ : ContinuousSearchState).foundEvents.length ≤ 50) ∧
    (runContinuous 1 ⟨[], 0, 0, true, false⟩
      [⟨.TRANSIT, [], 0, 86400000, 0, 0, false⟩]).foundEvents.length ≤ 50 := by
  have h1 : ((⟨[], 0, 0, true, false⟩ : ContinuousSearchState).foundEvents.length ≤ 50) := by
    norm_num
  have h2 : ((⟨[], 0, 0, true, false⟩ : ContinuousSearchState).foundEvents.length = 50 →
      (⟨[], 0, 0, true, false⟩ : ContinuousSearchState).active = false) := by
    intro hcontra
    norm_num at hcontra
  exact ⟨h1,
    (C6_continuous_iteration 1 ⟨[], 0, 0, true, false⟩
      ⟨.TRANSIT, [], 0, 86400000, 0, 0, false⟩
      [⟨.TRANSIT, [], 0, 86400000, 0, 0, false⟩]).2.2 h1 h2⟩

theorem posEarthCex (t : ℝ) :
    getPositionHelper hpCex "earth" t true cexBodies = ⟨1, 0, 0⟩ := by
  show (⟨(⟨1, 0, 0⟩ : Position).x,
    (⟨1, 0, 0⟩ : Position).y * Real.cos (23.4392911 * (Real.pi / 180)) +
      (⟨1, 0, 0⟩ : Position).z * Real.sin (23.4392911 * (Real.pi / 180)),
    -(⟨1, 0, 0⟩ : Position).y * Real.sin (23.4392911 * (Real.pi / 180)) +
      (⟨1, 0, 0⟩ : Position).z * Real.cos (23.4392911 * (Real.pi / 180))⟩ : Position) =
    ⟨1, 0, 0⟩
  simp only [Position.mk.injEq]
  norm_num

theorem posMarsCex (t : ℝ) : getPositionHelper hpCex "mars" t true cexBodies =
    (if t = 43200000 then ⟨-1, 0, 0⟩
     else if 0 ≤ t ∧ t ≤ 86400000 then ⟨1, 1/2, 0⟩
     else ⟨2, 0, 0⟩) := by
  show (⟨(if t = 43200000 then (⟨-1, 0, 0⟩ : Position)
      else if 0 ≤ t ∧ t ≤ 86400000 then
        ⟨1, 1 / 2 * Real.cos (23.4392911 * (Real.pi / 180)),
         1 / 2 * Real.sin (23.4392911 * (Real.pi / 180))⟩
      else ⟨2, 0, 0⟩).x,
    (if t = 43200000 then (⟨-1, 0, 0⟩ : Position)
      else if 0 ≤ t ∧ t ≤ 86400000 then
        ⟨1, 1 / 2 * Real.cos (23.4392911 * (Real.pi / 180)),
         1 / 2 * Real.sin (23.4392911 * (Real.pi / 180))⟩
      else ⟨2, 0, 0⟩).y * Real.cos (23.4392911 * (Real.pi / 180)) +
      (if t = 43200000 then (⟨-1, 0, 0⟩ : Position)
        else if 0 ≤ t ∧ t ≤ 86400000 then
          ⟨1, 1 / 2 * Real.cos (23.4392911 * (Real.pi / 180)),
           1 / 2 * Real.sin (23.4392911 * (Real.pi / 180))⟩
        else ⟨2, 0, 0⟩).z * Real.sin (23.4392911 * (Real.pi / 180)),
    -(if t = 43200000 then (⟨-1, 0, 0⟩ : Position)
      else if 0 ≤ t ∧ t ≤ 86400000 then
        ⟨1, 1 / 2 * Real.cos (23.4392911 * (Real.pi / 180)),
         1 / 2 * Real.sin (23.4392911 * (Real.pi / 180))⟩
      else ⟨2, 0, 0⟩).y * Real.sin (23.4392911 * (Real.pi / 180)) +
      (if t = 43200000 then (⟨-1, 0, 0⟩ : Position)
        else if 0 ≤ t ∧ t ≤ 86400000 then
          ⟨1, 1 / 2 * Real.cos (23.4392911 * (Real.pi / 180)),
           1 / 2 * Real.sin (23.4392911 * (Real.pi / 180))⟩
        else ⟨2, 0, 0⟩).z * Real.cos (23.4392911 * (Real.pi / 180))⟩ : Position) =
    (if t = 43200000 then ⟨-1, 0, 0⟩
     else if 0 ≤ t ∧ t ≤ 86400000 then ⟨1, 1/2, 0⟩
     else ⟨2, 0, 0⟩)
  have hpyth := Real.sin_sq_add_cos_sq (23.4392911 * (Real.pi / 180))
  split_ifs with h1 h2
  · simp only [Position.mk.injEq]
    norm_num
  · simp only [Position.mk.injEq]
    refine ⟨by norm_num, ?_, ?_⟩
    · linear_combination (1 / 2) * hpyth
    · ring
  · simp only [Position.mk.injEq]
    norm_num

theorem magnitude_cex_es : magnitude (subtractVectors ⟨0, 0, 0⟩ ⟨1, 0, 0⟩) = 1 := by
  show Real.sqrt ((0 - 1) * (0 - 1) + (0 - 0) * (0 - 0) + (0 - 0) * (0 - 0)) = 1
  norm_num

theorem angleCex_mid (t : ℝ) (h0 : 0 ≤ t) (h1 : t ≤ 86400000) (hne : t ≠ 43200000) :
    transitAngleDeg hpCex "mars" t true cexBodies = 90 := by
  rw [transitAngleDeg, posEarthCex, posMarsCex, if_neg hne, if_pos ⟨h0, h1⟩]
  show angleBetweenVectors3D ⟨0 - 1, 0 - 0, 0 - 0⟩ ⟨1 - 1, 1/2 - 0, 0 - 0⟩ *
    (180 / Real.pi) = 90
  rw [angleBetweenVectors3D]
  have hm1 : magnitude ⟨0 - 1, 0 - 0, 0 - 0⟩ = 1 := by
    show Real.sqrt ((0 - 1) * (0 - 1) + (0 - 0) * (0 - 0) + (0 - 0) * (0 - 0)) = 1
    norm_num
  have hm2 : magnitude ⟨1 - 1, 1/2 - 0, 0 - 0⟩ = 1/2 := by
    show Real.sqrt ((1 - 1) * (1 - 1) + (1/2 - 0) * (1/2 - 0) + (0 - 0) * (0 - 0)) = 1/2
    rw [show ((1:ℝ) - 1) * (1 - 1) + (1/2 - 0) * (1/2 - 0) + (0 - 0) * (0 - 0) =
      (1/2)^2 by norm_num]
    exact Real.sqrt_sq (by norm_num)
  rw [hm1, hm2]
  rw [if_neg (by norm_num)]
  have hdot : (0 - 1 : ℝ) * (1 - 1) + (0 - 0) * (1/2 - 0) + (0 - 0) * (0 - 0) = 0 := by
    norm_num
  rw [hdot]
  norm_num [Real.arccos_zero]
  field_simp
  ring

theorem angleCex_opt : transitAngleDeg hpCex "mars" 43200000 true cexBodies = 0 := by
  rw [transitAngleDeg, posEarthCex, posMarsCex, if_pos rfl]
  show angleBetweenVectors3D ⟨0 - 1, 0 - 0, 0 - 0⟩ ⟨-1 - 1, 0 - 0, 0 - 0⟩ *
    (180 / Real.pi) = 0
  rw [angleBetweenVectors3D]
  have hm1 : magnitude ⟨0 - 1, 0 - 0, 0 - 0⟩ = 1 := by
    show Real.sqrt ((0 - 1) * (0 - 1) + (0 - 0) * (0 - 0) + (0 - 0) * (0 - 0)) = 1
    norm_num
  have hm2 : magnitude ⟨-1 - 1, 0 - 0, 0 - 0⟩ = 2 := by
    show Real.sqrt ((-1 - 1) * (-1 - 1) + (0 - 0) * (0 - 0) + (0 - 0) * (0 - 0)) = 2
    rw [show ((-1:ℝ) - 1) * (-1 - 1) + (0 - 0) * (0 - 0) + (0 - 0) * (0 - 0) =
      2^2 by norm_num]
    exact Real.sqrt_sq (by norm_num)
  rw [hm1, hm2]
  rw [if_neg (by norm_num)]
  have hdot : (0 - 1 : ℝ) * (-1 - 1) + (0 - 0) * (0 - 0) + (0 - 0) * (0 - 0) = 2 := by
    norm_num
  rw [hdot]
  norm_num [Real.arccos_one]

theorem angleCex_out (t : ℝ) (hout : ¬ (0 ≤ t ∧ t ≤ 86400000)) (hne : t ≠ 43200000) :
    transitAngleDeg hpCex "mars" t true cexBodies = 180 := by
  rw [transitAngleDeg, posEarthCex, posMarsCex, if_neg hne, if_neg hout]
  show angleBetweenVectors3D ⟨0 - 1, 0 - 0, 0 - 0⟩ ⟨2 - 1, 0 - 0, 0 - 0⟩ *
    (180 / Real.pi) = 180
  rw [angleBetweenVectors3D]
  have hm1 : magnitude ⟨0 - 1, 0 - 0, 0 - 0⟩ = 1 := by
    show Real.sqrt ((0 - 1) * (0 - 1) + (0 - 0) * (0 - 0) + (0 - 0) * (0 - 0)) = 1
    norm_num
  have hm2 : magnitude ⟨2 - 1, 0 - 0, 0 - 0⟩ = 1 := by
    show Real.sqrt ((2 - 1) * (2 - 1) + (0 - 0) * (0 - 0) + (0 - 0) * (0 - 0)) = 1
    norm_num
  rw [hm1, hm2]
  rw [if_neg (by norm_num)]
  have hdot : (0 - 1 : ℝ) * (2 - 1) + (0 - 0) * (0 - 0) + (0 - 0) * (0 - 0) = -1 := by
    norm_num
  rw [hdot]
  norm_num [Real.arccos_neg_one]
  rw [mul_div_assoc']
  rw [mul_comm]
  rw [mul_div_assoc]
  rw [div_self Real.pi_ne_zero]
  ring

theorem magCex_half : magnitude (subtractVectors ⟨1, 1/2, 0⟩ ⟨1, 0, 0⟩) = 1/2 := by
  show Real.sqrt ((1 - 1) * (1 - 1) + (1/2 - 0) * (1/2 - 0) + (0 - 0) * (0 - 0)) = 1/2
  rw [show ((1:ℝ) - 1) * (1 - 1) + (1/2 - 0) * (1/2 - 0) + (0 - 0) * (0 - 0) =
    (1/2)^2 by norm_num]
  exact Real.sqrt_sq (by norm_num)

theorem magCex_two : magnitude (subtractVectors ⟨-1, 0, 0⟩ ⟨1, 0, 0⟩) = 2 := by
  show Real.sqrt ((-1 - 1) * (-1 - 1) + (0 - 0) * (0 - 0) + (0 - 0) * (0 - 0)) = 2
  rw [show ((-1:ℝ) - 1) * (-1 - 1) + (0 - 0) * (0 - 0) + (0 - 0) * (0 - 0) =
    2^2 by norm_num]
  exact Real.sqrt_sq (by norm_num)

theorem metricCex_eq (t : ℝ) : metricCex t =
    (if transitAngleDeg hpCex "mars" t true cexBodies > 0
     then transitAngleDeg hpCex "mars" t true cexBodies else 0) := rfl

theorem metricCex_mid (t : ℝ) (h0 : 0 ≤ t) (h1 : t ≤ 86400000) (hne : t ≠ 43200000) :
    metricCex t = 90 := by
  rw [metricCex_eq, angleCex_mid t h0 h1 hne]
  norm_num

theorem metricCex_opt : metricCex 43200000 = 0 := by
  rw [metricCex_eq, angleCex_opt]
  norm_num

theorem metricCex_nonneg (t : ℝ) : 0 ≤ metricCex t :=
  getAlignmentMetric_transit_nonneg hpCex t ["mars"] true cexBodies

theorem metricCex_sample (i : ℕ) (hle : i ≤ 20) (hne : i ≠ 10) :
    metricCex ((0 : ℝ) + (i : ℝ) * 4320000) = 90 := by
  have hc0 : (0 : ℝ) ≤ (i : ℝ) := Nat.cast_nonneg i
  have hc20 : (i : ℝ) ≤ 20 := by exact_mod_cast hle
  apply metricCex_mid
  · nlinarith
  · nlinarith
  · intro hcontra
    have hi : (i : ℝ) = 10 := by linarith
    exact hne (by exact_mod_cast hi)

theorem checkCex_grid (t : ℝ) (h0 : 0 ≤ t) (h1 : t ≤ 86400000) (hne : t ≠ 43200000) :
    durationCheck hpCex .TRANSIT ["mars"] 100 true false 1 cexBodies t := by
  intro id hid
  rw [List.mem_singleton] at hid
  subst hid
  refine ⟨?_, ?_⟩
  · show transitAngleDeg hpCex "mars" t true cexBodies ≤
      if (false : Bool) = true then 1 else 100
    rw [angleCex_mid t h0 h1 hne]
    norm_num
  · show magnitude (subtractVectors (getPositionHelper hpCex "mars" t true cexBodies)
        (getPositionHelper hpCex "earth" t true cexBodies)) <
      magnitude (subtractVectors ⟨0, 0, 0⟩ (getPositionHelper hpCex "earth" t true cexBodies))
    rw [posEarthCex, posMarsCex, if_neg hne, if_pos ⟨h0, h1⟩, magnitude_cex_es, magCex_half]
    norm_num

theorem checkCex_out_false (t : ℝ) (hout : ¬ (0 ≤ t ∧ t ≤ 86400000))
    (hne : t ≠ 43200000) :
    ¬ durationCheck hpCex .TRANSIT ["mars"] 100 true false 1 cexBodies t := by
  intro h
  have hb := h "mars" (List.mem_singleton.mpr rfl)
  have h1 : transitAngleDeg hpCex "mars" t true cexBodies ≤
      (if (false : Bool) = true then (1 : ℝ) else 100) := hb.1
  rw [angleCex_out t hout hne] at h1
  norm_num at h1

theorem checkCex_opt_false :
    ¬ durationCheck hpCex .TRANSIT ["mars"] 100 true false 1 cexBodies 43200000 := by
  intro h
  have hb := h "mars" (List.mem_singleton.mpr rfl)
  have h2 : magnitude (subtractVectors (getPositionHelper hpCex "mars" 43200000 true cexBodies)
      (getPositionHelper hpCex "earth" 43200000 true cexBodies)) <
      magnitude (subtractVectors ⟨0, 0, 0⟩
        (getPositionHelper hpCex "earth" 43200000 true cexBodies)) := hb.2
  rw [posEarthCex, posMarsCex, if_pos rfl, magnitude_cex_es, magCex_two] at h2
  norm_num at h2

/-- The window the counterexample search expands to: the two days around
time 0 satisfy the transit predicate, the days outside do not. -/
theorem durCex : calculateEventDuration hpCex 0 .TRANSIT ["mars"] 100 true false 1 cexBodies =
    (0, 86400000) := by
  unfold calculateEventDuration
  have hs : expandStartGo (fun t => durationCheck hpCex .TRANSIT ["mars"] 100 true false 1
      cexBodies (t : ℝ)) 0 3651 0 = 0 := by
    rw [show (3651 : ℕ) = 3650 + 1 from rfl, expandStartGo_succ]
    rw [show ((((0 : ℤ) - STEPms) : ℤ) : ℝ) = (-86400000 : ℝ) by
      norm_num [STEPms]]
    rw [if_neg (checkCex_out_false (-86400000) (by norm_num) (by norm_num))]
  have he : expandEndGo (fun t => durationCheck hpCex .TRANSIT ["mars"] 100 true false 1
      cexBodies (t : ℝ)) 0 3651 0 = 86400000 := by
    rw [show (3651 : ℕ) = 3650 + 1 from rfl, expandEndGo_succ]
    rw [show ((((0 : ℤ) + STEPms) : ℤ) : ℝ) = (86400000 : ℝ) by norm_num [STEPms]]
    rw [if_pos (checkCex_grid 86400000 (by norm_num) (by norm_num) (by norm_num))]
    rw [if_neg (by norm_num [STEPms] : ¬ ((0 : ℤ) + STEPms - 0 > 3650 * STEPms))]
    rw [show (3650 : ℕ) = 3649 + 1 from rfl, expandEndGo_succ]
    rw [show ((((0 : ℤ) + STEPms + STEPms) : ℤ) : ℝ) = (172800000 : ℝ) by
      norm_num [STEPms]]
    rw [if_neg (checkCex_out_false 172800000 (by norm_num) (by norm_num))]
    norm_num [STEPms]
  show (expandStartGo (fun t => durationCheck hpCex .TRANSIT ["mars"] 100 true false 1
      cexBodies (t : ℝ)) 0 3651 0,
    expandEndGo (fun t => durationCheck hpCex .TRANSIT ["mars"] 100 true false 1
      cexBodies (t : ℝ)) 0 3651 0) = (0, 86400000)
  rw [hs, he]

theorem coarseLoop_nil (metric : ℝ → ℝ) (s0 h : ℝ) (st : ℝ × ℝ) :
    coarseLoop metric s0 h [] st = st := rfl

theorem coarseLoop_append (metric : ℝ → ℝ) (s0 h : ℝ) :
    ∀ (l1 l2 : List ℕ) (st : ℝ × ℝ),
      coarseLoop metric s0 h (l1 ++ l2) st =
        coarseLoop metric s0 h l2 (coarseLoop metric s0 h l1 st) := by
  intro l1
  induction l1 with
  | nil => intro l2 st; rfl
  | cons i rest ih =>
      intro l2 st
      rw [List.cons_append, coarseLoop_cons, coarseLoop_cons, ih]

/-- The coarse fold skips every sample whose metric is at least the running
minimum. -/
theorem coarseLoop_no_update (metric : ℝ → ℝ) (s0 h : ℝ) :
    ∀ (idxs : List ℕ) (st : ℝ × ℝ),
      (∀ i ∈ idxs, st.2 ≤ metric (s0 + (i : ℝ) * h)) →
      coarseLoop metric s0 h idxs st = st := by
  intro idxs
  induction idxs with
  | nil => intro st _; rfl
  | cons i rest ih =>
      intro st hmin
      rw [coarseLoop_cons,
        if_neg (not_lt.mpr (hmin i (List.mem_cons_self i rest)))]
      exact ih st (fun j hj => hmin j (List.mem_cons_of_mem i hj))

/-- The ternary loop never updates a pair whose retained value is a global
lower bound of the metric. -/
theorem ternLoop_no_update (metric : ℝ → ℝ) (bt mm : ℝ)
    (hmono : ∀ t, mm ≤ metric t) :
    ∀ (n : ℕ) (l r : ℝ), ternLoop metric n l r (bt, mm) = (bt, mm) := by
  intro n
  induction n with
  | zero => intro l r; rfl
  | succ n ih =>
      intro l r
      rw [ternLoop_succ]
      by_cases hcmp : metric (l + (r - l) / 3) < metric (r - (r - l) / 3)
      · rw [if_pos hcmp, if_neg (not_lt.mpr (hmono (l + (r - l) / 3)))]
        exact ih l (r - (r - l) / 3)
      · rw [if_neg hcmp, if_neg (not_lt.mpr (hmono (r - (r - l) / 3)))]
        exact ih (l + (r - l) / 3) r

/-- The coarse phase of the counterexample search: the half-day sample
`i = 10` (time 43200000) is the unique minimum. -/
theorem coarseCex :
    coarseLoop metricCex 0 4320000 (List.range 21) (0, 999) = (43200000, 0) := by
  have hsplit : List.range 21 =
      (([0] ++ [1, 2, 3, 4, 5, 6, 7, 8, 9]) ++ [10]) ++
        [11, 12, 13, 14, 15, 16, 17, 18, 19, 20] := by decide
  rw [hsplit, coarseLoop_append, coarseLoop_append, coarseLoop_append]
  have h0 : coarseLoop metricCex 0 4320000 [0] (0, 999) = (0, 90) := by
    rw [coarseLoop_cons]
    rw [show (0 : ℝ) + ((0 : ℕ) : ℝ) * 4320000 = 0 by norm_num]
    rw [metricCex_mid 0 (le_refl 0) (by norm_num) (by norm_num)]
    rw [if_pos (by norm_num)]
    rfl
  rw [h0]
  have h19 : coarseLoop metricCex 0 4320000 [1, 2, 3, 4, 5, 6, 7, 8, 9] (0, 90) =
      (0, 90) := by
    apply coarseLoop_no_update
    intro i hi
    rw [metricCex_sample i (by simp at hi; omega) (by simp at hi; omega)]
  rw [h19]
  have h10 : coarseLoop metricCex 0 4320000 [10] (0, 90) = (43200000, 0) := by
    rw [coarseLoop_cons]
    rw [show (0 : ℝ) + ((10 : ℕ) : ℝ) * 4320000 = 43200000 by norm_num]
    rw [metricCex_opt]
    rw [if_pos (by norm_num)]
    rfl
  rw [h10]
  apply coarseLoop_no_update
  intro i hi
  exact le_trans (by norm_num) (ge_of_eq (metricCex_sample i
    (by simp at hi; omega) (by simp at hi; omega)))

/-- The optimizer of the counterexample search returns the half-day instant
with metric 0. -/
theorem optCex : findOptimalEventTime hpCex 0 86400000 .TRANSIT ["mars"] true false 1
    cexBodies = (43200000, 0) := by
  have h1 : findOptimalEventTime hpCex 0 86400000 .TRANSIT ["mars"] true false 1 cexBodies =
      findOptimalCore metricCex 0 86400000 := rfl
  rw [h1]
  unfold findOptimalCore
  rw [show ((86400000 : ℝ) - 0) / 20 = 4320000 by norm_num]
  show ternLoop metricCex 10
    (0 ⊔ ((coarseLoop metricCex 0 4320000 (List.range 21) (0, 999)).1 - 4320000))
    (86400000 ⊓ ((coarseLoop metricCex 0 4320000 (List.range 21) (0, 999)).1 + 4320000))
    (coarseLoop metricCex 0 4320000 (List.range 21) (0, 999)) = (43200000, 0)
  rw [coarseCex]
  exact ternLoop_no_update metricCex 43200000 0 metricCex_nonneg 10 _ _

theorem evCex_optimalDate :
    (mkFoundEvent hpCex 0 .TRANSIT ["mars"] 100 true false 1 cexBodies).optimalDate =
      43200000 := by
  unfold mkFoundEvent
  show (findOptimalEventTime hpCex
      (((calculateEventDuration hpCex 0 .TRANSIT ["mars"] 100 true false 1 cexBodies).1 : ℤ) : ℝ)
      (((calculateEventDuration hpCex 0 .TRANSIT ["mars"] 100 true false 1 cexBodies).2 : ℤ) : ℝ)
      .TRANSIT ["mars"] true false 1 cexBodies).1 = 43200000
  rw [durCex]
  rw [show ((((0 : ℤ), (86400000 : ℤ)).1 : ℤ) : ℝ) = (0 : ℝ) by norm_num]
  rw [show ((((0 : ℤ), (86400000 : ℤ)).2 : ℤ) : ℝ) = (86400000 : ℝ) by norm_num]
  rw [optCex]

/-- Counterexample to C1 as stated: a transit search on the switch-resolved
target `"mars"` (tolerance 100°, non-strict, high precision) with the
external engine instance `hpCex` finds the window `[0, 86400000]` around a
center date where the predicate holds, but `findOptimalEventTime` places
the optimal instant at the half-day point 43200000 — a
superior-conjunction geometry where Mars is exactly behind the Sun and
farther from Earth than the Sun — so the detection predicate `isTransit`
is FALSE at `optimalDate`: the optimizer minimizes the angular metric only
and never re-checks the nearer-than-the-Sun condition. -/
theorem C1_counterexample :
    durationCheck hpCex .TRANSIT ["mars"] 100 true false 1 cexBodies (((0 : ℤ) : ℝ)) ∧
    ¬ durationCheck hpCex .TRANSIT ["mars"] 100 true false 1 cexBodies
        (mkFoundEvent hpCex 0 .TRANSIT ["mars"] 100 true false 1 cexBodies).optimalDate := by
  constructor
  · rw [show (((0 : ℤ) : ℝ)) = (0 : ℝ) by norm_num]
    exact checkCex_grid 0 (le_refl 0) (by norm_num) (by norm_num)
  · rw [evCex_optimalDate]
    exact checkCex_opt_false

/-- On a window whose start metric is below the 999 sentinel, the optimizer
attains its returned value at the returned time, which stays inside the
window, and the value is at most the start metric. -/
theorem findOptimalCore_attained (metric : ℝ → ℝ) (s e : ℝ) (hse : s ≤ e)
    (hlt : metric s < 999) :
    metric (findOptimalCore metric s e).1 = (findOptimalCore metric s e).2 ∧
    (findOptimalCore metric s e).2 ≤ metric s ∧
    s ≤ (findOptimalCore metric s e).1 ∧ (findOptimalCore metric s e).1 ≤ e := by
  have h := findOptimalCore_spec metric s e hse
  have hsmem : s ∈ optimalProbes metric s e := by
    apply List.mem_append_left
    exact List.mem_map.mpr ⟨0, List.mem_range.mpr (by norm_num), by norm_num⟩
  have hbound := h.1 s hsmem
  rcases h.2.1 with ⟨_, h2⟩ | ⟨_, h2⟩
  · exfalso
    rw [h2] at hbound
    linarith
  · exact ⟨h2, hbound, h.2.2.2⟩

/-- With at least two targets, the alignment predicate is exactly the
alignment metric compared against the tolerance. -/
theorem checkSpecificAlignment_iff_metric (hp : HpAdapter) (dateMs : ℝ)
    (targetIds : List String) (toleranceDeg : ℝ) (useHighPrecision : Bool)
    (allBodies : List PlanetData) (hlen : ¬ targetIds.length < 2) :
    (checkSpecificAlignment hp dateMs targetIds toleranceDeg useHighPrecision allBodies ↔
      getAlignmentMetric hp dateMs .PLANETARY_ALIGNMENT targetIds useHighPrecision
        allBodies ≤ toleranceDeg) := by
  unfold checkSpecificAlignment
  rw [if_neg hlen]
  have heq : getAlignmentMetric hp dateMs .PLANETARY_ALIGNMENT targetIds
      useHighPrecision allBodies =
      alignmentSpan hp dateMs targetIds useHighPrecision allBodies := by
    show (if targetIds.length < 2 then (0 : ℝ)
      else alignmentSpan hp dateMs targetIds useHighPrecision allBodies) = _
    rw [if_neg hlen]
  rw [heq]

/-- C1 (amended): for every found event built by the schedulers (window
expansion followed by optimal-time refinement) from a center date where the
detection predicate holds, `startDate ≤ optimalDate ≤ endDate`; moreover at
`optimalDate` the full alignment predicate still holds for alignment
searches, and for transit searches every target's Sun–body angle is still
within the effective tolerance — but the nearer-than-the-Sun half of
`isTransit` is not guaranteed at `optimalDate` (see the counterexample). -/
theorem C1_found_event_invariant (hp : HpAdapter) (centerT : ℤ)
    (eventType : EventType) (targetIds : List String) (toleranceDeg : ℝ)
    (useHighPrecision strictMode : Bool) (solarRadiusDeg : ℝ)
    (allBodies : List PlanetData)
    (hc : durationCheck hp eventType targetIds toleranceDeg useHighPrecision
      strictMode solarRadiusDeg allBodies (centerT : ℝ)) :
    (((mkFoundEvent hp centerT eventType targetIds toleranceDeg useHighPrecision
        strictMode solarRadiusDeg allBodies).startDate : ℝ) ≤
      (mkFoundEvent hp centerT eventType targetIds toleranceDeg useHighPrecision
        strictMode solarRadiusDeg allBodies).optimalDate ∧
      (mkFoundEvent hp centerT eventType targetIds toleranceDeg useHighPrecision
        strictMode solarRadiusDeg allBodies).optimalDate ≤
      ((mkFoundEvent hp centerT eventType targetIds toleranceDeg useHighPrecision
        strictMode solarRadiusDeg allBodies).endDate : ℝ)) ∧
    (eventType = .PLANETARY_ALIGNMENT →
      checkSpecificAlignment hp
        (mkFoundEvent hp centerT eventType targetIds toleranceDeg useHighPrecision
          strictMode solarRadiusDeg allBodies).optimalDate targetIds toleranceDeg
        useHighPrecision allBodies) ∧
    (eventType = .TRANSIT → ∀ id ∈ targetIds,
      transitAngleDeg hp id
        (mkFoundEvent hp centerT eventType targetIds toleranceDeg useHighPrecision
          strictMode solarRadiusDeg allBodies).optimalDate useHighPrecision allBodies ≤
        (if strictMode then solarRadiusDeg else toleranceDeg)) := by
  have hstart := expandStartGo_spec
    (fun t => durationCheck hp eventType targetIds toleranceDeg useHighPrecision
      strictMode solarRadiusDeg allBodies (t : ℝ)) centerT 3651 centerT
    (by norm_num) (by push_cast; ring) hc
  have hend := expandEndGo_spec
    (fun t => durationCheck hp eventType targetIds toleranceDeg useHighPrecision
      strictMode solarRadiusDeg allBodies (t : ℝ)) centerT 3651 centerT
    (by norm_num) (by push_cast; ring) hc
  have hd1 : (mkFoundEvent hp centerT eventType targetIds toleranceDeg useHighPrecision
      strictMode solarRadiusDeg allBodies).startDate =
      expandStartGo
        (fun t => durationCheck hp eventType targetIds toleranceDeg useHighPrecision
          strictMode solarRadiusDeg allBodies (t : ℝ)) centerT 3651 centerT := rfl
  have hd2 : (mkFoundEvent hp centerT eventType targetIds toleranceDeg useHighPrecision
      strictMode solarRadiusDeg allBodies).endDate =
      expandEndGo
        (fun t => durationCheck hp eventType targetIds toleranceDeg useHighPrecision
          strictMode solarRadiusDeg allBodies (t : ℝ)) centerT 3651 centerT := rfl
  have hdle : (mkFoundEvent hp centerT eventType targetIds toleranceDeg useHighPrecision
      strictMode solarRadiusDeg allBodies).startDate ≤
      (mkFoundEvent hp centerT eventType targetIds toleranceDeg useHighPrecision
        strictMode solarRadiusDeg allBodies).endDate := by
    rw [hd1, hd2]
    exact le_trans hstart.1 hend.1
  have hcheckStart : durationCheck hp eventType targetIds toleranceDeg useHighPrecision
      strictMode solarRadiusDeg allBodies
      (((mkFoundEvent hp centerT eventType targetIds toleranceDeg useHighPrecision
        strictMode solarRadiusDeg allBodies).startDate : ℝ)) := by
    rw [hd1]
    exact hstart.2.1
  have hse : (((mkFoundEvent hp centerT eventType targetIds toleranceDeg useHighPrecision
      strictMode solarRadiusDeg allBodies).startDate : ℤ) : ℝ) ≤
      (((mkFoundEvent hp centerT eventType targetIds toleranceDeg useHighPrecision
        strictMode solarRadiusDeg allBodies).endDate : ℤ) : ℝ) := by
    exact_mod_cast hdle
  have hlt : (fun t => getAlignmentMetric hp t eventType targetIds useHighPrecision
      allBodies)
      (((mkFoundEvent hp centerT eventType targetIds toleranceDeg useHighPrecision
        strictMode solarRadiusDeg allBodies).startDate : ℝ)) < 999 :=
    getAlignmentMetric_lt_999 hp _ eventType targetIds useHighPrecision allBodies
  have hatt := findOptimalCore_attained
    (fun t => getAlignmentMetric hp t eventType targetIds useHighPrecision allBodies)
    (((mkFoundEvent hp centerT eventType targetIds toleranceDeg useHighPrecision
      strictMode solarRadiusDeg allBodies).startDate : ℝ))
    (((mkFoundEvent hp centerT eventType targetIds toleranceDeg useHighPrecision
      strictMode solarRadiusDeg allBodies).endDate : ℝ)) hse hlt
  have hoptEq : (mkFoundEvent hp centerT eventType targetIds toleranceDeg useHighPrecision
      strictMode solarRadiusDeg allBodies).optimalDate =
      (findOptimalCore
        (fun t => getAlignmentMetric hp t eventType targetIds useHighPrecision allBodies)
        (((mkFoundEvent hp centerT eventType targetIds toleranceDeg useHighPrecision
          strictMode solarRadiusDeg allBodies).startDate : ℝ))
        (((mkFoundEvent hp centerT eventType targetIds toleranceDeg useHighPrecision
          strictMode solarRadiusDeg allBodies).endDate : ℝ))).1 := rfl
  have hangEq : (mkFoundEvent hp centerT eventType targetIds toleranceDeg useHighPrecision
      strictMode solarRadiusDeg allBodies).minAngle =
      (findOptimalCore
        (fun t => getAlignmentMetric hp t eventType targetIds useHighPrecision allBodies)
        (((mkFoundEvent hp centerT eventType targetIds toleranceDeg useHighPrecision
          strictMode solarRadiusDeg allBodies).startDate : ℝ))
        (((mkFoundEvent hp centerT eventType targetIds toleranceDeg useHighPrecision
          strictMode solarRadiusDeg allBodies).endDate : ℝ))).2 := rfl
  refine ⟨?_, ?_, ?_⟩
  · rw [hoptEq]
    exact ⟨hatt.2.2.1, hatt.2.2.2⟩
  · intro htype
    subst htype
    have hlen : ¬ targetIds.length < 2 := by
      intro hl
      have hcc : checkSpecificAlignment hp (centerT : ℝ) targetIds toleranceDeg
          useHighPrecision allBodies := hc
      unfold checkSpecificAlignment at hcc
      rw [if_pos hl] at hcc
      exact hcc
    have hms : getAlignmentMetric hp
        (((mkFoundEvent hp centerT .PLANETARY_ALIGNMENT targetIds toleranceDeg
          useHighPrecision strictMode solarRadiusDeg allBodies).startDate : ℝ))
        .PLANETARY_ALIGNMENT targetIds useHighPrecision allBodies ≤ toleranceDeg := by
      rw [← checkSpecificAlignment_iff_metric hp _ targetIds toleranceDeg
        useHighPrecision allBodies hlen]
      exact hcheckStart
    rw [checkSpecificAlignment_iff_metric hp _ targetIds toleranceDeg
      useHighPrecision allBodies hlen]
    rw [hoptEq]
    calc getAlignmentMetric hp _ .PLANETARY_ALIGNMENT targetIds useHighPrecision allBodies
        = _ := hatt.1
      _ ≤ _ := hatt.2.1
      _ ≤ toleranceDeg := hms
  · intro htype id hid
    subst htype
    have hTolNonneg : 0 ≤ (if strictMode then solarRadiusDeg else toleranceDeg) := by
      have hidT := hcheckStart id hid
      have h1 : transitAngleDeg hp id
          (((mkFoundEvent hp centerT .TRANSIT targetIds toleranceDeg useHighPrecision
            strictMode solarRadiusDeg allBodies).startDate : ℝ)) useHighPrecision
          allBodies ≤ (if strictMode = true then solarRadiusDeg else toleranceDeg) :=
        hidT.1
      have h0 := (transitAngleDeg_bounds hp id
        (((mkFoundEvent hp centerT .TRANSIT targetIds toleranceDeg useHighPrecision
          strictMode solarRadiusDeg allBodies).startDate : ℝ)) useHighPrecision
        allBodies).1
      exact le_trans h0 h1
    have hms : getAlignmentMetric hp
        (((mkFoundEvent hp centerT .TRANSIT targetIds toleranceDeg useHighPrecision
          strictMode solarRadiusDeg allBodies).startDate : ℝ)) .TRANSIT targetIds
        useHighPrecision allBodies ≤ (if strictMode then solarRadiusDeg else toleranceDeg) := by
      apply foldl_jsmax_le _ _ targetIds 0 hTolNonneg
      intro id2 hid2
      exact (hcheckStart id2 hid2).1
    have hang := transitAngleDeg_le_metric hp
      ((mkFoundEvent hp centerT .TRANSIT targetIds toleranceDeg useHighPrecision
        strictMode solarRadiusDeg allBodies).optimalDate) targetIds useHighPrecision
      allBodies id hid
    rw [hoptEq] at hang ⊢
    calc transitAngleDeg hp id _ useHighPrecision allBodies
        ≤ _ := hang
      _ = _ := hatt.1
      _ ≤ _ := hatt.2.1
      _ ≤ _ := hms

/-- Witness for `C1_found_event_invariant`: a transit search with no targets
(vacuously true predicate) from center 0. -/
theorem C1_found_event_invariant_witness :
    durationCheck (fun _ _ => none) .TRANSIT [] 1 false false 1 [] (((0 : ℤ) : ℝ)) ∧
    (((mkFoundEvent (fun _ _ => none) 0 .TRANSIT [] 1 false false 1 []).startDate : ℝ) ≤
      (mkFoundEvent (fun _ _ => none) 0 .TRANSIT [] 1 false false 1 []).optimalDate) := by
  have hc : durationCheck (fun _ _ => none) .TRANSIT [] 1 false false 1 []
      (((0 : ℤ) : ℝ)) := by
    intro id hid
    simp at hid
  exact ⟨hc,
    (C1_found_event_invariant (fun _ _ => none) 0 .TRANSIT [] 1 false false 1 [] hc).1.1⟩

end SolarExplorer
